import Mathlib

/-!
# Verification of the Catalina DSP core (northernpaws/rythm)

A shallow embedding, in Lean 4, of the signal-generation and
sample-representation core of the repository:

* the ADSR envelope state machine
  (`src/crates/catalina-engine/src/audio/envelope/adsr.rs`),
* the waveform generators, lookup oscillator and table allocator
  (`src/crates/catalina-engine/src/audio/oscillator/mod.rs`),
* the variable-shape oscillator
  (`src/crates/catalina-engine/src/audio/oscillator/variable.rs`),
* the sample conversion engine
  (`src/crates/catalina-engine/src/audio/sample/conv.rs`),
* the `Hertz` frequency wrapper with its epsilon equality
  (`src/crates/catalina-engine/src/core/mod.rs`).

Modelling conventions: `f32` values are modelled as real numbers (`ℝ`)
where transcendental functions appear (sine tables) and as rationals
(`ℚ`) elsewhere; the envelope, whose `libm::logf` call can produce an
IEEE NaN on reachable inputs, uses `FReal` (a real, NaN, or a signed
infinity) so that NaN propagation stays visible; machine integers are
modelled as `ℤ` / `ℕ`.
All source operations exercised by the theorems below stay within the
ranges of their machine types, so no wrap-around modelling is required
except where noted.  Where a floating-point cast genuinely rounds
(integer ↔ float conversions), rounding to a `p`-bit significand is
modelled explicitly (`roundF`).
-/

namespace Catalina

/-! ## ADSR envelope — adsr.rs

`Envelope` mirrors the Rust struct field for field; the setters and
`process` are direct transcriptions.  Note that the source's `process`
reads `self.gate` but never writes it (there is no `self.gate = gate;`
anywhere in adsr.rs), and the embedding reproduces that faithfully.

The envelope's `f32` values are modelled by `FReal` below: a real
number, an IEEE NaN, or a signed infinity.  This matters because
`set_attack_time` calls `libm::logf(1.0 - 1.0/target)`, and the
argument is negative whenever the attack-shape polynomial `target`
falls below `1`, which happens at ordinary in-range shapes (for
example `shape = -0.1`); `logf` then returns NaN, which propagates
through `attack_d0` into the `process` output.  Setter arguments
themselves are modelled as finite reals. -/

/-- The C++-derived constant `M_E` from adsr.rs (line 5). -/
noncomputable def M_E : ℝ := 2.71828182845904523536

/-- An `f32` value: NaN, a signed infinity, or a finite value
(modelled as a real). -/
inductive FReal
  | nan
  | neginf
  | inf
  | val (x : ℝ)

namespace FReal

/-- IEEE addition: NaN propagates, opposite infinities give NaN. -/
noncomputable def add : FReal → FReal → FReal
  | nan, _ => nan
  | _, nan => nan
  | inf, neginf => nan
  | neginf, inf => nan
  | inf, _ => inf
  | _, inf => inf
  | neginf, _ => neginf
  | _, neginf => neginf
  | val a, val b => val (a + b)

/-- IEEE subtraction: NaN propagates, `inf - inf` gives NaN. -/
noncomputable def sub : FReal → FReal → FReal
  | nan, _ => nan
  | _, nan => nan
  | inf, inf => nan
  | neginf, neginf => nan
  | inf, _ => inf
  | _, inf => neginf
  | neginf, _ => neginf
  | _, neginf => inf
  | val a, val b => val (a - b)

/-- IEEE multiplication: NaN propagates, `inf * 0` gives NaN. -/
noncomputable def mul : FReal → FReal → FReal
  | nan, _ => nan
  | _, nan => nan
  | inf, inf => inf
  | inf, neginf => neginf
  | neginf, inf => neginf
  | neginf, neginf => inf
  | inf, val b => if b = 0 then nan else if 0 < b then inf else neginf
  | val a, inf => if a = 0 then nan else if 0 < a then inf else neginf
  | neginf, val b => if b = 0 then nan else if 0 < b then neginf else inf
  | val a, neginf => if a = 0 then nan else if 0 < a then neginf else inf
  | val a, val b => val (a * b)

/-- IEEE division by a finite real divisor (the only divisors in
adsr.rs are `seconds * sample_rate` and the like).  A nonzero finite
value divided by zero gives a signed infinity (`ℝ` has a single zero,
which models `+0.0`); `0/0` gives NaN. -/
noncomputable def divR : FReal → ℝ → FReal
  | nan, _ => nan
  | inf, d => if d < 0 then neginf else inf
  | neginf, d => if d < 0 then inf else neginf
  | val x, d =>
      if d = 0 then (if x = 0 then nan else if 0 < x then inf else neginf)
      else val (x / d)

/-- `libm::logf` on a finite argument: NaN on negatives, `-inf` at
zero, the real logarithm on positives. -/
noncomputable def logf (y : ℝ) : FReal :=
  if y < 0 then nan else if y = 0 then neginf else val (Real.log y)

/-- `libm::expf`. -/
noncomputable def expf : FReal → FReal
  | nan => nan
  | inf => inf
  | neginf => val 0
  | val x => val (Real.exp x)

/-- The comparison `a > c` against a finite real: false on NaN. -/
noncomputable def gtR : FReal → ℝ → Bool
  | nan, _ => false
  | inf, _ => true
  | neginf, _ => false
  | val x, c => decide (c < x)

/-- The comparison `a < c` against a finite real: false on NaN. -/
noncomputable def ltR : FReal → ℝ → Bool
  | nan, _ => false
  | inf, _ => false
  | neginf, _ => true
  | val x, c => decide (x < c)

@[simp] lemma add_val_val (a b : ℝ) : add (val a) (val b) = val (a + b) := rfl

@[simp] lemma add_nan (a : FReal) : add nan a = nan := by cases a <;> rfl

@[simp] lemma add_val_nan (a : ℝ) : add (val a) nan = nan := rfl

@[simp] lemma sub_val_val (a b : ℝ) : sub (val a) (val b) = val (a - b) := rfl

@[simp] lemma sub_val_nan (a : ℝ) : sub (val a) nan = nan := rfl

@[simp] lemma mul_nan (a : FReal) : mul nan a = nan := by cases a <;> rfl

@[simp] lemma mul_val_nan (a : ℝ) : mul (val a) nan = nan := rfl

@[simp] lemma mul_val_val (a b : ℝ) : mul (val a) (val b) = val (a * b) := rfl

@[simp] lemma divR_nan (d : ℝ) : divR nan d = nan := rfl

@[simp] lemma expf_nan : expf nan = nan := rfl

@[simp] lemma expf_val (x : ℝ) : expf (val x) = val (Real.exp x) := rfl

@[simp] lemma gtR_nan (c : ℝ) : gtR nan c = false := rfl

@[simp] lemma ltR_nan (c : ℝ) : ltR nan c = false := rfl

@[simp] lemma gtR_val (x c : ℝ) : gtR (val x) c = decide (c < x) := rfl

lemma divR_val {d : ℝ} (x : ℝ) (h : d ≠ 0) : divR (val x) d = val (x / d) := by
  simp [divR, h]

lemma logf_of_neg {y : ℝ} (h : y < 0) : logf y = nan := by
  unfold logf; rw [if_pos h]

lemma logf_of_pos {y : ℝ} (h : 0 < y) : logf y = val (Real.log y) := by
  unfold logf; rw [if_neg (not_lt.mpr h.le), if_neg (ne_of_gt h)]

end FReal

/-- `EnvelopeStage` from adsr.rs. -/
inductive EnvelopeStage
  | Init
  | Attack
  | Decay
  | Release
deriving DecidableEq, Repr

/-- The `Envelope` struct from adsr.rs, field for field (`f32` fields
that can hold a computed value are `FReal`; the stored setter
arguments are finite reals). -/
structure Envelope where
  sample_rate : ℕ
  attack_time : ℝ
  attack_level : FReal
  decay_time : ℝ
  sustain_level : FReal
  release_time : ℝ
  attack_shape : ℝ
  attack_d0 : FReal
  decay_d0 : FReal
  release_d0 : FReal
  stage : EnvelopeStage
  gate : Bool
  x : FReal

/-- `Envelope::set_attack_time` (adsr.rs lines 96-111).
`libm::powf(x, 10.0)` is `x ^ 10` (an even integral exponent, so the
IEEE `powf` agrees with the real power for negative bases too); the
`libm::logf` call goes through `FReal.logf` and therefore yields NaN
whenever `1 - 1/target` is negative. -/
noncomputable def Envelope.set_attack_time (e : Envelope) (seconds shape : ℝ) : Envelope :=
  if seconds ≠ e.attack_time ∨ shape ≠ e.attack_shape then
    if seconds > 0 then
      let target : ℝ := 9 * shape ^ (10 : ℕ) + 0.3 * shape + 1.01
      let log_target : FReal := FReal.logf (1 - 1 / target)
      { e with
        attack_time := seconds
        attack_shape := shape
        attack_level := FReal.val target
        attack_d0 :=
          FReal.sub (FReal.val 1)
            (FReal.expf (log_target.divR (seconds * e.sample_rate))) }
    else
      { e with attack_time := seconds, attack_shape := shape, attack_d0 := FReal.val 1 }
  else e

/-- `Envelope::set_decay_time` (adsr.rs lines 115-126). -/
noncomputable def Envelope.set_decay_time (e : Envelope) (seconds : ℝ) : Envelope :=
  if seconds ≠ e.decay_time then
    if seconds > 0 then
      { e with
        decay_time := seconds
        decay_d0 :=
          FReal.sub (FReal.val 1)
            (FReal.expf ((FReal.logf (1 / M_E)).divR (seconds * e.sample_rate))) }
    else
      { e with decay_time := seconds, decay_d0 := FReal.val 1 }
  else e

/-- `Envelope::set_release_time` (adsr.rs lines 131-142). -/
noncomputable def Envelope.set_release_time (e : Envelope) (seconds : ℝ) : Envelope :=
  if seconds ≠ e.release_time then
    if seconds > 0 then
      { e with
        release_time := seconds
        release_d0 :=
          FReal.sub (FReal.val 1)
            (FReal.expf ((FReal.logf (1 / M_E)).divR (seconds * e.sample_rate))) }
    else
      { e with release_time := seconds, release_d0 := FReal.val 1 }
  else e

/-- `Envelope::set_sustain_level` (adsr.rs lines 145-154). -/
noncomputable def Envelope.set_sustain_level (e : Envelope) (level : ℝ) : Envelope :=
  if level ≤ 0 then { e with sustain_level := FReal.val (-0.01) }
  else if level > 1 then { e with sustain_level := FReal.val 1 }
  else { e with sustain_level := FReal.val level }

/-- `Envelope::new` (adsr.rs lines 68-93). -/
noncomputable def Envelope.new (sample_rate : ℕ) : Envelope :=
  let e : Envelope :=
    { sample_rate := sample_rate
      attack_time := -1
      attack_level := FReal.val 0
      decay_time := -1
      sustain_level := FReal.val 0
      release_time := -1
      attack_shape := -1
      attack_d0 := FReal.val 0
      decay_d0 := FReal.val 0
      release_d0 := FReal.val 0
      stage := EnvelopeStage.Init
      gate := false
      x := FReal.val 0 }
  ((e.set_attack_time 0.1 0).set_decay_time 0.1).set_release_time 0.1

/-- `Envelope::process` (adsr.rs lines 163-219).  Returns the output
sample together with the updated envelope.  Faithful details: the
stored `gate` field is read for the edge tests but never updated,
exactly as in the source, and the float comparisons (`out > 1.0`,
`out < 0.0`) are false on NaN, so a NaN `x` is passed through
unclamped. -/
noncomputable def Envelope.process (e : Envelope) (gate : Bool) : FReal × Envelope :=
  let e :=
    if gate && !e.gate then { e with stage := EnvelopeStage.Attack }
    else if !gate && e.gate then { e with stage := EnvelopeStage.Release }
    else e
  let d0 :=
    if e.stage = EnvelopeStage.Decay then e.decay_d0
    else if e.stage = EnvelopeStage.Release then e.release_d0
    else e.attack_d0
  match e.stage with
  | EnvelopeStage.Init => (FReal.val 0, e)
  | EnvelopeStage.Attack =>
      let x := e.x.add (d0.mul (e.attack_level.sub e.x))
      if x.gtR 1 then (FReal.val 1, { e with x := FReal.val 1, stage := EnvelopeStage.Decay })
      else (x, { e with x := x })
  | EnvelopeStage.Decay | EnvelopeStage.Release =>
      let target : FReal :=
        if e.stage = EnvelopeStage.Decay then e.sustain_level else FReal.val (-0.01)
      let x := e.x.add (d0.mul (target.sub e.x))
      if x.ltR 0 then (FReal.val 0, { e with x := FReal.val 0, stage := EnvelopeStage.Init })
      else (x, { e with x := x })

/-- The freshly constructed envelope at rate 48000: gate `false`,
stage `Init`, `x = 0`, attack time `0.1` with shape `0`, attack level
`1.01`, and the documented finite attack coefficient (for shape `0`
the log argument `1 - 1/1.01` is positive, so no NaN arises). -/
lemma new48000_fields :
    (Envelope.new 48000).gate = false ∧ (Envelope.new 48000).x = FReal.val 0 ∧
      (Envelope.new 48000).attack_level = FReal.val 1.01 ∧
      (Envelope.new 48000).attack_d0 =
        FReal.val (1 - Real.exp (Real.log (1 - 1 / 1.01) / (0.1 * 48000))) ∧
      (Envelope.new 48000).stage = EnvelopeStage.Init ∧
      (Envelope.new 48000).attack_time = 0.1 ∧
      (Envelope.new 48000).attack_shape = 0 ∧
      (Envelope.new 48000).sample_rate = 48000 := by
  refine ⟨?_, ?_, ?_, ?_, ?_, ?_, ?_, ?_⟩ <;>
    norm_num [Envelope.new, Envelope.set_attack_time, Envelope.set_decay_time,
      Envelope.set_release_time, FReal.logf, FReal.divR, FReal.expf, FReal.sub,
      apply_ite Envelope.gate, apply_ite Envelope.x, apply_ite Envelope.attack_level,
      apply_ite Envelope.attack_d0, apply_ite Envelope.stage,
      apply_ite Envelope.attack_time, apply_ite Envelope.attack_shape,
      apply_ite Envelope.sample_rate]

/-- The fresh attack coefficient at rate 48000 is tiny: within
`[0, 0.005]`. -/
lemma fresh_attack_d0_bounds :
    0 ≤ 1 - Real.exp (Real.log (1 - 1 / 1.01) / (0.1 * 48000)) ∧
      1 - Real.exp (Real.log (1 - 1 / 1.01) / (0.1 * 48000)) ≤ 0.005 := by
  have harg : (1 - 1 / 1.01 : ℝ) = ((101 : ℝ))⁻¹ := by norm_num
  rw [harg, Real.log_inv]
  have hlog_nonneg : 0 ≤ Real.log 101 := Real.log_nonneg (by norm_num)
  have hlog_le : Real.log 101 ≤ 5 := by
    rw [Real.log_le_iff_le_exp (by norm_num)]
    have h1 : (2.7182818283 : ℝ) < Real.exp 1 := Real.exp_one_gt_d9
    have h5 : Real.exp 5 = Real.exp 1 ^ (5 : ℕ) := by
      rw [← Real.exp_nat_mul]; norm_num
    have : (2.7182818283 : ℝ) ^ (5 : ℕ) < Real.exp 1 ^ (5 : ℕ) :=
      pow_lt_pow_left₀ h1 (by norm_num) (by norm_num)
    nlinarith [this]
  have h48 : (0.1 * 48000 : ℝ) = 4800 := by norm_num
  rw [h48]
  have ht : -Real.log 101 / 4800 ≤ 0 :=
    div_nonpos_of_nonpos_of_nonneg (by linarith) (by norm_num)
  constructor
  · have := Real.exp_le_one_iff.mpr ht
    linarith
  · have hexp := Real.add_one_le_exp (-Real.log 101 / 4800)
    have hq : -5 / 4800 ≤ -Real.log 101 / 4800 :=
      (div_le_div_iff_of_pos_right (by norm_num : (0:ℝ) < 4800)).mpr (by linarith)
    nlinarith

/-- On a stored gate of `false`, `process true` takes the rising-edge
branch, and if the attack update does not overshoot `1.0` the result is
the same envelope with stage `Attack` and the advanced `x`. -/
lemma process_true_of_gate_false {e : Envelope} (hg : e.gate = false)
    (hle : (e.x.add (e.attack_d0.mul (e.attack_level.sub e.x))).gtR 1 = false) :
    e.process true = (e.x.add (e.attack_d0.mul (e.attack_level.sub e.x)),
      { e with
        stage := EnvelopeStage.Attack
        x := e.x.add (e.attack_d0.mul (e.attack_level.sub e.x)) }) := by
  unfold Envelope.process
  simp only [hg, Bool.not_false, Bool.and_self, reduceIte, reduceCtorEq, ite_false, ite_true,
    hle, Bool.false_eq_true]

/-- On a stored gate of `false`, `process false` detects no edge at all
(the source never updates the stored gate); in stage `Attack` without
overshoot it just advances `x`. -/
lemma process_false_of_gate_false_attack (e : Envelope) (hg : e.gate = false)
    (hst : e.stage = EnvelopeStage.Attack)
    (hle : (e.x.add (e.attack_d0.mul (e.attack_level.sub e.x))).gtR 1 = false) :
    e.process false = (e.x.add (e.attack_d0.mul (e.attack_level.sub e.x)),
      { e with x := e.x.add (e.attack_d0.mul (e.attack_level.sub e.x)) }) := by
  unfold Envelope.process
  simp only [hg, hst, Bool.not_false, Bool.and_false, Bool.false_and, Bool.and_self,
    reduceIte, reduceCtorEq, ite_false, ite_true, hle, Bool.false_eq_true]

/-- Two successive `process` calls (gate `true`, then gate `false`) on
an envelope with stored gate `false` that never overshoots the attack
target leave the stage at `Attack`: the falling edge is never seen. -/
lemma process_true_then_false_stage (e : Envelope) (hg : e.gate = false)
    (hle1 : (e.x.add (e.attack_d0.mul (e.attack_level.sub e.x))).gtR 1 = false)
    (hle2 : ((e.x.add (e.attack_d0.mul (e.attack_level.sub e.x))).add
        (e.attack_d0.mul (e.attack_level.sub
          (e.x.add (e.attack_d0.mul (e.attack_level.sub e.x)))))).gtR 1 = false) :
    ((e.process true).2.process false).2.stage = EnvelopeStage.Attack ∧
      (e.process true).2.gate = false := by
  rw [process_true_of_gate_false hg hle1]
  rw [process_false_of_gate_false_attack
    { e with
      stage := EnvelopeStage.Attack
      x := e.x.add (e.attack_d0.mul (e.attack_level.sub e.x)) } hg rfl hle2]
  exact ⟨rfl, hg⟩

/-- **C1 (code bug).** The spec's transition rule says a falling gate
edge (previous input `true`, current input `false`) forces the stage to
`Release`.  The source's `process` never stores the incoming gate
(`self.gate` is read but never written in adsr.rs), so after
`process(true); process(false)` on a fresh envelope the stage is still
`Attack`, not `Release`, and the stored gate still reads `false`. -/
theorem envelope_falling_edge_not_released :
    (((Envelope.new 48000).process true).2.process false).2.stage = EnvelopeStage.Attack ∧
      (((Envelope.new 48000).process true).2.process false).2.stage ≠ EnvelopeStage.Release ∧
      ((Envelope.new 48000).process true).2.gate = false := by
  obtain ⟨hgate, hx0, hlevel, hd0, -, -, -, -⟩ := new48000_fields
  obtain ⟨hd0lb, hd0ub⟩ := fresh_attack_d0_bounds
  have hle1 : ((Envelope.new 48000).x.add ((Envelope.new 48000).attack_d0.mul
      ((Envelope.new 48000).attack_level.sub (Envelope.new 48000).x))).gtR 1 = false := by
    rw [hx0, hlevel, hd0]
    simp only [FReal.sub_val_val, FReal.mul_val_val, FReal.add_val_val, FReal.gtR_val]
    exact decide_eq_false (by intro hcon; nlinarith)
  have hle2 : (((Envelope.new 48000).x.add ((Envelope.new 48000).attack_d0.mul
      ((Envelope.new 48000).attack_level.sub (Envelope.new 48000).x))).add
        ((Envelope.new 48000).attack_d0.mul ((Envelope.new 48000).attack_level.sub
          ((Envelope.new 48000).x.add ((Envelope.new 48000).attack_d0.mul
            ((Envelope.new 48000).attack_level.sub (Envelope.new 48000).x)))))).gtR 1
      = false := by
    rw [hx0, hlevel, hd0]
    simp only [FReal.sub_val_val, FReal.mul_val_val, FReal.add_val_val, FReal.gtR_val]
    exact decide_eq_false (by
      intro hcon
      nlinarith [mul_nonneg hd0lb hd0lb])
  obtain ⟨hst, hg1⟩ := process_true_then_false_stage (Envelope.new 48000) hgate hle1 hle2
  exact ⟨hst, by rw [hst]; intro h; exact EnvelopeStage.noConfusion h, hg1⟩

/-- After `set_attack_time(0.1, -0.1)` on a fresh envelope the target
polynomial is `9·(-0.1)^10 + 0.3·(-0.1) + 1.01 < 1`, so the log
argument `1 - 1/target` is negative and the stored attack coefficient
is NaN; gate and `x` are untouched. -/
lemma set_attack_bad_shape_fields :
    ((Envelope.new 48000).set_attack_time 0.1 (-0.1)).attack_d0 = FReal.nan ∧
      ((Envelope.new 48000).set_attack_time 0.1 (-0.1)).gate = false ∧
      ((Envelope.new 48000).set_attack_time 0.1 (-0.1)).x = FReal.val 0 := by
  obtain ⟨hg, hx, -, -, -, hat, hsh, -⟩ := new48000_fields
  unfold Envelope.set_attack_time
  rw [hat, hsh]
  rw [if_pos (by norm_num : (0.1 : ℝ) ≠ 0.1 ∨ (-0.1 : ℝ) ≠ 0),
    if_pos (by norm_num : (0.1 : ℝ) > 0)]
  refine ⟨?_, hg, hx⟩
  show FReal.sub (FReal.val 1)
      (FReal.expf ((FReal.logf
        (1 - 1 / (9 * (-0.1 : ℝ) ^ (10 : ℕ) + 0.3 * (-0.1) + 1.01))).divR
          (0.1 * ((Envelope.new 48000).sample_rate : ℝ)))) = FReal.nan
  rw [FReal.logf_of_neg (by norm_num)]
  simp

/-- **C8 (code bug).** The spec says every `process` call returns one
`f32` envelope multiplier in `[0.0, 1.0]`, and the claim extends this
over arbitrary setter arguments.  It fails: after the ordinary
in-range call `set_attack_time(0.1, -0.1)`, the attack target
`9·(-0.1)^10 + 0.3·(-0.1) + 1.01 ≈ 0.98` is below `1`, so
`libm::logf(1 - 1/target)` receives a negative argument and returns
NaN; `attack_d0` becomes NaN and the next `process(true)` outputs
NaN — which is not a value of `[0, 1]` (it is not equal to any real
number at all). -/
theorem envelope_process_output_nan :
    (((Envelope.new 48000).set_attack_time 0.1 (-0.1)).process true).1 = FReal.nan ∧
      ∀ r : ℝ,
        (((Envelope.new 48000).set_attack_time 0.1 (-0.1)).process true).1 ≠ FReal.val r := by
  obtain ⟨hd0, hg, hx⟩ := set_attack_bad_shape_fields
  have hout : (((Envelope.new 48000).set_attack_time 0.1 (-0.1)).process true).1
      = FReal.nan := by
    unfold Envelope.process
    simp only [hg, Bool.not_false, Bool.and_self, reduceIte, reduceCtorEq, ite_false,
      ite_true, hd0, hx, FReal.mul_nan, FReal.add_val_nan, FReal.gtR_nan,
      Bool.false_eq_true]
  exact ⟨hout, fun r h => by rw [hout] at h; exact FReal.noConfusion h⟩

/-! ## Hertz — core/mod.rs

`f32` frequencies are modelled as rationals so that the epsilon
equality used by the table cache stays decidable. -/

/-- `Hertz` from core/mod.rs: a wrapped frequency value. -/
structure Hertz where
  val : ℚ
deriving DecidableEq, Repr

/-- The `PartialEq` implementation for `Hertz` (core/mod.rs lines 49-54):
`float_eq!(self.0, other.0, abs <= 0.000_1)`, i.e. an absolute
difference of at most `0.0001`. -/
def Hertz.feq (a b : Hertz) : Prop := |a.val - b.val| ≤ 0.0001

instance (a b : Hertz) : Decidable (a.feq b) := by unfold Hertz.feq; infer_instance

/-! ## Waveform generators, oscillators and the table allocator —
oscillator/mod.rs

Waveform values are modelled over `ℝ` (the sine path needs `Real.sin`);
`PI` denotes the real π (the `f32` constant rounds it, which none of
the stated claims depend on). `phase % 1.0` is Rust's `Rem` on floats:
the remainder truncated toward zero. -/

/-- Truncation toward zero, as Rust float-to-float `%` uses. -/
noncomputable def rustTrunc (x : ℝ) : ℤ := if 0 ≤ x then ⌊x⌋ else ⌈x⌉

/-- Rust's `x % 1.0`. -/
noncomputable def rustFmod1 (x : ℝ) : ℝ := x - rustTrunc x

lemma rustFmod1_eq_self {x : ℝ} (h0 : 0 ≤ x) (h1 : x < 1) : rustFmod1 x = x := by
  unfold rustFmod1 rustTrunc
  rw [if_pos h0, Int.floor_eq_zero_iff.mpr ⟨h0, h1⟩]
  simp

/-- `sine` (oscillator/mod.rs line 34): `(2.0 * PI * phase).sin()`. -/
noncomputable def sine (phase : ℝ) : ℝ := Real.sin (2 * Real.pi * phase)

/-- `sample_sine` (line 45): `sine(frequency.0 * index as f32 / sample_rate as f32)`. -/
noncomputable def sample_sine (index sample_rate : ℕ) (frequency : Hertz) : ℝ :=
  sine ((frequency.val : ℝ) * index / sample_rate)

/-- `saw` (line 61): `1.0 - (phase % 1.0) * 2.0`. -/
noncomputable def saw (phase : ℝ) : ℝ := 1 - rustFmod1 phase * 2

/-- `sample_saw` (line 71): `saw(index as f32 / sample_rate as f32 * frequency.0)`. -/
noncomputable def sample_saw (index sample_rate : ℕ) (frequency : Hertz) : ℝ :=
  saw ((index : ℝ) / sample_rate * (frequency.val : ℝ))

/-- `triangle` (line 83). -/
noncomputable def triangle (phase : ℝ) : ℝ :=
  let slope := rustFmod1 phase * 2
  if slope < 1 then -1 + slope * 2 else 3 - slope * 2

/-- `sample_triangle` (line 98). -/
noncomputable def sample_triangle (index sample_rate : ℕ) (frequency : Hertz) : ℝ :=
  triangle ((index : ℝ) / sample_rate * (frequency.val : ℝ))

/-- `DutyCycle` (oscillator/mod.rs lines 138-147). -/
inductive DutyCycle
  | Eight
  | Quarter
  | Third
  | Half
deriving DecidableEq, Repr

/-- `DutyCycle::to_fractional` (lines 152-159). -/
noncomputable def DutyCycle.to_fractional : DutyCycle → ℝ
  | DutyCycle.Eight => 0.125
  | DutyCycle.Quarter => 0.25
  | DutyCycle.Third => 0.33
  | DutyCycle.Half => 0.5

/-- `square` (line 110). -/
noncomputable def square (phase : ℝ) (duty_cycle : DutyCycle) : ℝ :=
  if rustFmod1 phase < duty_cycle.to_fractional then 1 else -1

/-- `sample_square` (line 124). -/
noncomputable def sample_square (index sample_rate : ℕ) (frequency : Hertz)
    (duty_cycle : DutyCycle) : ℝ :=
  square ((index : ℝ) / sample_rate * (frequency.val : ℝ)) duty_cycle

/-- `OscillatorType` (lines 173-197). -/
inductive OscillatorType
  | Sine
  | Saw
  | Triangle
  | Square
deriving DecidableEq, Repr

/-- `TableError` (lines 202-205). -/
inductive TableError
  | IncorrectSize (expected actual : ℕ)
  | TableFull
deriving DecidableEq, Repr

/-- `OscillatorType::sample_index` (lines 219-232). -/
noncomputable def OscillatorType.sample_index (t : OscillatorType) (index sample_rate : ℕ)
    (frequency : Hertz) (duty_cycle : DutyCycle) : ℝ :=
  match t with
  | OscillatorType.Sine => sample_sine index sample_rate frequency
  | OscillatorType.Saw => sample_saw index sample_rate frequency
  | OscillatorType.Triangle => sample_triangle index sample_rate frequency
  | OscillatorType.Square => sample_square index sample_rate frequency duty_cycle

/-- `PI2` (line 28): `PI * 2.0`. -/
noncomputable def PI2 : ℝ := Real.pi * 2

/-- `OscillatorType::build_table` (lines 236-271).  The buffer is a
list; the filled buffer is returned (the Rust version overwrites every
element of the caller's slice, so only its length matters). -/
noncomputable def OscillatorType.build_table (t : OscillatorType) (table : List ℝ)
    (sample_rate : ℕ) (frequency : Hertz) (duty_cycle : DutyCycle) :
    Except TableError (List ℝ) :=
  if table.length ≠ sample_rate then
    Except.error (TableError.IncorrectSize sample_rate table.length)
  else
    match t with
    | OscillatorType.Sine =>
        let mult : ℝ := (frequency.val : ℝ) * PI2 / sample_rate
        Except.ok ((List.range table.length).map fun index : ℕ =>
          Real.sin ((index : ℝ) * mult))
    | _ => Except.ok ((List.range table.length).map fun index =>
        t.sample_index index sample_rate frequency duty_cycle)

lemma range_map_getD {α : Type} (g : ℕ → α) {n i : ℕ} (hi : i < n) (d : α) :
    ((List.range n).map g).getD i d = g i := by
  rw [List.getD_eq_getElem?_getD]
  simp [List.getElem?_map, List.getElem?_range, hi]

/-- A successful `build_table` fills entry `i` with the value of the
per-index sampling function (exactly, in the real-number model — the
sine fast path differs only by a ring rearrangement of the argument). -/
lemma build_table_spec {t : OscillatorType} {table : List ℝ} {rate : ℕ} {f : Hertz}
    {d : DutyCycle} {out : List ℝ} (hok : t.build_table table rate f d = Except.ok out)
    {i : ℕ} (hi : i < rate) : out.getD i 0 = t.sample_index i rate f d := by
  unfold OscillatorType.build_table at hok
  split at hok
  · exact absurd hok (by simp)
  · next hlen =>
    push_neg at hlen
    cases t with
    | Sine =>
        simp only at hok
        injection hok with hok
        subst hok
        rw [range_map_getD _ (by rwa [hlen])]
        show Real.sin ((i : ℝ) * ((f.val : ℝ) * PI2 / rate)) = _
        unfold OscillatorType.sample_index sample_sine sine PI2
        congr 1
        ring
    | Saw =>
        simp only at hok
        injection hok with hok
        subst hok
        rw [range_map_getD _ (by rwa [hlen])]
    | Triangle =>
        simp only at hok
        injection hok with hok
        subst hok
        rw [range_map_getD _ (by rwa [hlen])]
    | Square =>
        simp only at hok
        injection hok with hok
        subst hok
        rw [range_map_getD _ (by rwa [hlen])]

/-- **C5.** For every waveform kind, sample rate, frequency and duty
cycle, after a successful `build_table` into a buffer of length equal
to the sample rate, every table entry equals the per-index sampling
function — exactly for Saw/Triangle/Square, and exactly (hence within
any ≤1-ULP tolerance) for the sine fast path in this real-number
model, where the precomputed angular step is a ring rearrangement. -/
theorem build_table_matches_sample_index (t : OscillatorType) (table : List ℝ) (rate : ℕ)
    (f : Hertz) (d : DutyCycle) (out : List ℝ)
    (hok : t.build_table table rate f d = Except.ok out) :
    ∀ i < rate, out.getD i 0 = t.sample_index i rate f d :=
  fun _ hi => build_table_spec hok hi

/-- Witness for C5 at kind Saw, rate 2, frequency 0. -/
theorem build_table_matches_sample_index_witness :
    ((List.range 2).map fun i =>
        OscillatorType.Saw.sample_index i 2 ⟨0⟩ DutyCycle.Half).getD 0 0 =
      OscillatorType.Saw.sample_index 0 2 ⟨0⟩ DutyCycle.Half :=
  build_table_matches_sample_index OscillatorType.Saw [0, 0] 2 ⟨0⟩ DutyCycle.Half _ rfl 0
    (by norm_num)

/-- **C7.** `build_table` returns `IncorrectSize{expected = sample_rate,
actual = len}` exactly when the buffer length differs from the sample
rate, and returns `Ok` when they are equal. -/
theorem build_table_incorrect_size_iff (t : OscillatorType) (table : List ℝ) (rate : ℕ)
    (f : Hertz) (d : DutyCycle) :
    (t.build_table table rate f d =
        Except.error (TableError.IncorrectSize rate table.length) ↔ table.length ≠ rate) ∧
      (table.length = rate → ∃ out, t.build_table table rate f d = Except.ok out) := by
  unfold OscillatorType.build_table
  by_cases hlen : table.length = rate
  · constructor
    · rw [if_neg (by simpa using hlen)]
      constructor
      · intro h
        cases t <;> simp at h
      · intro h
        exact absurd hlen h
    · intro _
      rw [if_neg (by simpa using hlen)]
      cases t <;> exact ⟨_, rfl⟩
  · constructor
    · rw [if_pos hlen]
      exact ⟨fun _ => hlen, fun _ => rfl⟩
    · intro h
      exact absurd h hlen

/-- Witness for C7: a correctly sized buffer builds fine, and a wrongly
sized one yields the documented error. -/
theorem build_table_incorrect_size_iff_witness :
    (∃ out, OscillatorType.Saw.build_table [0] 1 ⟨0⟩ DutyCycle.Half = Except.ok out) ∧
      OscillatorType.Saw.build_table [0, 0] 3 ⟨0⟩ DutyCycle.Half =
        Except.error (TableError.IncorrectSize 3 2) := by
  constructor
  · exact (build_table_incorrect_size_iff OscillatorType.Saw [0] 1 ⟨0⟩ DutyCycle.Half).2
      (by simp)
  · exact (build_table_incorrect_size_iff OscillatorType.Saw [0, 0] 3 ⟨0⟩ DutyCycle.Half).1.mpr
      (by simp)

/-- The float-domain caller contract documented at conv.rs lines
531-532 and 549-550: inputs to the float→integer conversions are
assumed to lie in `[-1.0, 1.0)`. -/
def floatConvContract (s : ℝ) : Prop := -1 ≤ s ∧ s < 1

lemma saw_zero : saw 0 = 1 := by
  norm_num [saw, rustFmod1, rustTrunc]

/-- **C10.** The saw waveform at phase 0 — hence `sample_saw` at index 0
and the first entry of every saw lookup table — is exactly `+1.0`,
which lies outside the `[-1.0, 1.0)` range the float→integer
conversions assume. -/
theorem saw_at_phase_zero_outside_conversion_contract :
    saw 0 = 1 ∧ (∀ (rate : ℕ) (f : Hertz), sample_saw 0 rate f = 1) ∧
      (∀ (rate : ℕ) (f : Hertz) (d : DutyCycle) (out : List ℝ),
        OscillatorType.Saw.build_table (List.replicate rate 0) rate f d = Except.ok out →
        0 < rate → out.getD 0 0 = 1) ∧
      ¬ floatConvContract (saw 0) := by
  have hz : saw 0 = 1 := saw_zero
  have hs : ∀ (rate : ℕ) (f : Hertz), sample_saw 0 rate f = 1 := by
    intro rate f
    unfold sample_saw
    norm_num [hz]
  refine ⟨hz, hs, ?_, ?_⟩
  · intro rate f d out hok hrate
    rw [build_table_spec hok hrate]
    exact hs rate f
  · rw [hz]
    rintro ⟨-, hlt⟩
    exact absurd hlt (by norm_num)

/-- Witness for C10's table clause at rate 1. -/
theorem saw_at_phase_zero_outside_conversion_contract_witness :
    (((List.range 1).map fun i =>
        OscillatorType.Saw.sample_index i 1 ⟨0⟩ DutyCycle.Half) : List ℝ).getD 0 0 = 1 :=
  saw_at_phase_zero_outside_conversion_contract.2.2.1 1 ⟨0⟩ DutyCycle.Half _ rfl
    (by norm_num)

/-- `LookupOscillator` (oscillator/mod.rs lines 372-383): a table slice,
the sample rate, and the running index. -/
structure LookupOscillator where
  sample_rate : ℕ
  table : List ℝ
  index : ℕ

/-- `LookupOscillator::new_from_table` (lines 387-394) — note the
source's TODO: the table length is not checked against the rate. -/
def LookupOscillator.new_from_table (sample_rate : ℕ) (table : List ℝ) : LookupOscillator :=
  { sample_rate := sample_rate, table := table, index := 0 }

/-- `LookupOscillator::sample` (lines 408-417): reads
`self.table[self.index]` — `none` models the Rust index-out-of-bounds
panic — then advances the index and wraps it at `self.sample_rate`
(not at the table length). -/
def LookupOscillator.sample (o : LookupOscillator) : Option (ℝ × LookupOscillator) :=
  match o.table[o.index]? with
  | none => none
  | some sample =>
      let index := o.index + 1
      let index := if index ≥ o.sample_rate then 0 else index
      some (sample, { o with index := index })

/-- Run `n` successive `sample` calls; `none` as soon as one panics. -/
def LookupOscillator.sampleN (o : LookupOscillator) : ℕ → Option LookupOscillator
  | 0 => some o
  | n + 1 =>
      match o.sample with
      | none => none
      | some (_, o') => o'.sampleN n

/-- **C6 counterexample.** A `LookupOscillator` built from a one-entry
table with `sample_rate = 2` panics on its second `sample` call: the
index wraps at the sample rate, not at the table length, and the
constructor does not check the two agree (the check is a TODO in
the source). -/
theorem lookup_oscillator_sample_panics_counterexample :
    (LookupOscillator.new_from_table 2 [0]).sampleN 2 = none := rfl

/-- One in-bounds `sample` step: with the table sized to the rate and
the index in range, the read succeeds and the new index is in range. -/
lemma lookup_sample_step {o : LookupOscillator} (hlen : o.table.length = o.sample_rate)
    (hidx : o.index < o.sample_rate) :
    ∃ v o', o.sample = some (v, o') ∧ o'.table = o.table ∧
      o'.sample_rate = o.sample_rate ∧ o'.index < o.sample_rate := by
  have hin : o.index < o.table.length := by rw [hlen]; exact hidx
  obtain ⟨v, hv⟩ : ∃ v, o.table[o.index]? = some v :=
    ⟨o.table[o.index], List.getElem?_eq_getElem hin⟩
  refine ⟨v, { o with index := if o.index + 1 ≥ o.sample_rate then 0 else o.index + 1 },
    ?_, rfl, rfl, ?_⟩
  · unfold LookupOscillator.sample
    rw [hv]
  · show (if o.index + 1 ≥ o.sample_rate then 0 else o.index + 1) < o.sample_rate
    split <;> omega

/-- **C6 (amended).** For every `LookupOscillator` whose table length
equals its sample-rate argument and is positive — the constructor
contract the source marks as a TODO check — no sequence of `sample`
calls panics: every table read is in bounds. -/
theorem lookup_oscillator_sample_safe (rate : ℕ) (table : List ℝ) (n : ℕ)
    (hlen : table.length = rate) (hpos : 0 < rate) :
    (LookupOscillator.new_from_table rate table).sampleN n ≠ none := by
  have key : ∀ (m : ℕ) (o : LookupOscillator), o.table.length = o.sample_rate →
      o.index < o.sample_rate → o.sampleN m ≠ none := by
    intro m
    induction m with
    | zero => intro o _ _ h; exact Option.noConfusion h
    | succ k ih =>
        intro o hl hi
        obtain ⟨v, o', hs, ht, hr, hix⟩ := lookup_sample_step hl hi
        unfold LookupOscillator.sampleN
        rw [hs]
        exact ih o' (by rw [ht, hr]; exact hl) (by rw [hr]; exact hix)
  exact key n _ hlen (by simpa [LookupOscillator.new_from_table] using hpos)

/-- Witness for the amended C6 at rate 1, three samples. -/
theorem lookup_oscillator_sample_safe_witness :
    (LookupOscillator.new_from_table 1 [0]).sampleN 3 ≠ none :=
  lookup_oscillator_sample_safe 1 [0] 3 (by simp) (by norm_num)

/-! ## Lookup-table allocator — oscillator/mod.rs lines 420-476 -/

/-- `OscillatorAllocator`: the two const generics and the `FnvIndexMap`,
modelled as an insertion-ordered association list (a heapless
`IndexMap` iterates in insertion order and never evicts). -/
structure OscillatorAllocator where
  sample_rate : ℕ
  max_tables : ℕ
  lookup : List ((OscillatorType × Hertz × DutyCycle) × List ℝ)

/-- The key predicate of `lookup_or_allocate`'s linear scan (line 451):
`entry.0.0 == osc && entry.0.1 == frequency && entry.0.2 == duty_cycle`,
with `Hertz`'s epsilon `PartialEq` in the middle. -/
def keyMatches (k : OscillatorType × Hertz × DutyCycle) (osc : OscillatorType) (f : Hertz)
    (d : DutyCycle) : Prop :=
  k.1 = osc ∧ k.2.1.feq f ∧ k.2.2 = d

instance (k : OscillatorType × Hertz × DutyCycle) (osc : OscillatorType) (f : Hertz)
    (d : DutyCycle) : Decidable (keyMatches k osc f d) := by
  unfold keyMatches; infer_instance

/-- `OscillatorAllocator::lookup_or_allocate` (lines 442-476).  On a
hit the Rust code returns `RefCell::clone` of the cached cell — a copy
of the stored table contents; the model returns the stored list.  On a
miss it zero-fills a buffer of length `SAMPLE_RATE`, builds the table
(propagating any error without touching the map), and inserts; the
`FnvIndexMap` rejects the insert when full (`TableFull`), leaving the
map unchanged. -/
noncomputable def OscillatorAllocator.lookup_or_allocate (a : OscillatorAllocator)
    (osc : OscillatorType) (frequency : Hertz) (duty_cycle : DutyCycle) :
    Except TableError (List ℝ) × OscillatorAllocator :=
  match a.lookup.find? (fun entry => decide (keyMatches entry.1 osc frequency duty_cycle)) with
  | some entry => (Except.ok entry.2, a)
  | none =>
      match osc.build_table (List.replicate a.sample_rate 0) a.sample_rate frequency
          duty_cycle with
      | Except.error err => (Except.error err, a)
      | Except.ok table =>
          if a.lookup.length < a.max_tables then
            (Except.ok table,
              { a with lookup := a.lookup ++ [((osc, frequency, duty_cycle), table)] })
          else
            (Except.error TableError.TableFull, a)

/-- `build_table` always succeeds on a buffer of the right length. -/
lemma build_table_ok_of_length (t : OscillatorType) (table : List ℝ) (rate : ℕ) (f : Hertz)
    (d : DutyCycle) (h : table.length = rate) :
    ∃ out, t.build_table table rate f d = Except.ok out := by
  unfold OscillatorType.build_table
  rw [if_neg (by simp [h])]
  cases t <;> exact ⟨_, rfl⟩

/-- **C4.** When the cache already holds `MAX_TABLES` entries and the
requested key matches no existing entry, `lookup_or_allocate` returns
`TableFull` and the allocator — keys and table contents — is exactly
unchanged. -/
theorem lookup_or_allocate_full_unchanged (a : OscillatorAllocator) (osc : OscillatorType)
    (f : Hertz) (d : DutyCycle) (hfull : a.lookup.length = a.max_tables)
    (hmiss : a.lookup.find? (fun entry => decide (keyMatches entry.1 osc f d)) = none) :
    a.lookup_or_allocate osc f d = (Except.error TableError.TableFull, a) := by
  obtain ⟨tbl, htbl⟩ := build_table_ok_of_length osc (List.replicate a.sample_rate 0)
    a.sample_rate f d (List.length_replicate a.sample_rate 0)
  unfold OscillatorAllocator.lookup_or_allocate
  rw [hmiss, htbl]
  simp only [if_neg (by omega : ¬ a.lookup.length < a.max_tables)]

/-- Witness for C4: a single-slot allocator already holding one saw
table rejects a request at a frequency more than 0.0001 Hz away. -/
theorem lookup_or_allocate_full_unchanged_witness :
    (⟨1, 1, [((OscillatorType.Saw, ⟨0⟩, DutyCycle.Half), [0])]⟩ :
        OscillatorAllocator).lookup_or_allocate OscillatorType.Saw ⟨1⟩ DutyCycle.Half =
      (Except.error TableError.TableFull,
        ⟨1, 1, [((OscillatorType.Saw, ⟨0⟩, DutyCycle.Half), [0])]⟩) :=
  lookup_or_allocate_full_unchanged _ OscillatorType.Saw ⟨1⟩ DutyCycle.Half rfl
    (by
      rw [List.find?_eq_none]
      intro x hx
      simp only [List.mem_singleton] at hx
      subst hx
      norm_num [keyMatches, Hertz.feq, abs_le])

/-- A scan hit returns the stored table and leaves the allocator alone. -/
lemma lookup_or_allocate_hit (a : OscillatorAllocator) (osc : OscillatorType) (f : Hertz)
    (d : DutyCycle) (entry : (OscillatorType × Hertz × DutyCycle) × List ℝ)
    (hfind : a.lookup.find? (fun e => decide (keyMatches e.1 osc f d)) = some entry) :
    a.lookup_or_allocate osc f d = (Except.ok entry.2, a) := by
  unfold OscillatorAllocator.lookup_or_allocate
  rw [hfind]

/-- A scan miss with room left builds, appends, and returns the new table. -/
lemma lookup_or_allocate_miss (a : OscillatorAllocator) (osc : OscillatorType) (f : Hertz)
    (d : DutyCycle) (T : List ℝ)
    (hmiss : a.lookup.find? (fun e => decide (keyMatches e.1 osc f d)) = none)
    (hT : osc.build_table (List.replicate a.sample_rate 0) a.sample_rate f d = Except.ok T)
    (hcap : a.lookup.length < a.max_tables) :
    a.lookup_or_allocate osc f d =
      (Except.ok T, { a with lookup := a.lookup ++ [((osc, f, d), T)] }) := by
  unfold OscillatorAllocator.lookup_or_allocate
  rw [hmiss, hT]
  simp only [if_pos hcap]

/-- **C3 counterexample.** The epsilon equality on frequencies is not
transitive, so the claim fails on a populated allocator: with cached
entries at 0 Hz and 0.00015 Hz, a call at f1 = 0.00012 Hz hits the
0.00015 Hz entry while a later call at f2 = 0.00008 Hz (only 0.00004 Hz
away from f1) hits the 0 Hz entry, and the two returned tables have
different contents. -/
theorem lookup_or_allocate_epsilon_counterexample :
    |(⟨3/25000⟩ : Hertz).val - (⟨1/12500⟩ : Hertz).val| ≤ 0.0001 ∧
      (let r2 := (((⟨2, 4, []⟩ : OscillatorAllocator).lookup_or_allocate
          OscillatorType.Saw ⟨0⟩ DutyCycle.Half).2.lookup_or_allocate
          OscillatorType.Saw ⟨3/20000⟩ DutyCycle.Half)
       let r3 := r2.2.lookup_or_allocate OscillatorType.Saw ⟨3/25000⟩ DutyCycle.Half
       let r4 := r3.2.lookup_or_allocate OscillatorType.Saw ⟨1/12500⟩ DutyCycle.Half
       (∃ t, r3.1 = Except.ok t) ∧ (∃ t, r4.1 = Except.ok t) ∧ r3.1 ≠ r4.1) := by
  constructor
  · norm_num [abs_le]
  have hT0 : OscillatorType.Saw.build_table (List.replicate 2 0) 2 ⟨0⟩ DutyCycle.Half =
      Except.ok ((List.range 2).map fun i =>
        OscillatorType.Saw.sample_index i 2 ⟨0⟩ DutyCycle.Half) := rfl
  have hT1 : OscillatorType.Saw.build_table (List.replicate 2 0) 2 ⟨3/20000⟩ DutyCycle.Half =
      Except.ok ((List.range 2).map fun i =>
        OscillatorType.Saw.sample_index i 2 ⟨3/20000⟩ DutyCycle.Half) := rfl
  have hc1 := lookup_or_allocate_miss ⟨2, 4, []⟩ OscillatorType.Saw ⟨0⟩ DutyCycle.Half _
    List.find?_nil hT0 (by norm_num)
  have hc2 := lookup_or_allocate_miss
    ⟨2, 4, [((OscillatorType.Saw, ⟨0⟩, DutyCycle.Half),
      (List.range 2).map fun i => OscillatorType.Saw.sample_index i 2 ⟨0⟩ DutyCycle.Half)]⟩
    OscillatorType.Saw ⟨3/20000⟩ DutyCycle.Half _
    (by
      rw [List.find?_eq_none]
      intro x hx
      simp only [List.mem_singleton] at hx
      subst hx
      norm_num [keyMatches, Hertz.feq, abs_le])
    hT1 (by norm_num)
  have hc3 := lookup_or_allocate_hit
    ⟨2, 4, [((OscillatorType.Saw, ⟨0⟩, DutyCycle.Half),
        (List.range 2).map fun i => OscillatorType.Saw.sample_index i 2 ⟨0⟩ DutyCycle.Half),
      ((OscillatorType.Saw, ⟨3/20000⟩, DutyCycle.Half),
        (List.range 2).map fun i =>
          OscillatorType.Saw.sample_index i 2 ⟨3/20000⟩ DutyCycle.Half)]⟩
    OscillatorType.Saw ⟨3/25000⟩ DutyCycle.Half _
    (by
      rw [List.find?_cons_of_neg _ (by norm_num [keyMatches, Hertz.feq, abs_le]),
        List.find?_cons_of_pos _ (by norm_num [keyMatches, Hertz.feq, abs_le])])
  have hc4 := lookup_or_allocate_hit
    ⟨2, 4, [((OscillatorType.Saw, ⟨0⟩, DutyCycle.Half),
        (List.range 2).map fun i => OscillatorType.Saw.sample_index i 2 ⟨0⟩ DutyCycle.Half),
      ((OscillatorType.Saw, ⟨3/20000⟩, DutyCycle.Half),
        (List.range 2).map fun i =>
          OscillatorType.Saw.sample_index i 2 ⟨3/20000⟩ DutyCycle.Half)]⟩
    OscillatorType.Saw ⟨1/12500⟩ DutyCycle.Half _
    (List.find?_cons_of_pos _ (by norm_num [keyMatches, Hertz.feq, abs_le]))
  dsimp only
  rw [hc1]
  simp only [List.nil_append]
  rw [hc2]
  simp only [List.singleton_append]
  rw [hc3, hc4]
  refine ⟨⟨_, rfl⟩, ⟨_, rfl⟩, ?_⟩
  dsimp only
  intro heq
  injection heq with heq
  have h1 : OscillatorType.Saw.sample_index 1 2 ⟨3/20000⟩ DutyCycle.Half =
      OscillatorType.Saw.sample_index 1 2 ⟨0⟩ DutyCycle.Half := by
    have := congrArg (fun l => l.getD 1 0) heq
    simpa [range_map_getD] using this
  have hv1 : OscillatorType.Saw.sample_index 1 2 (⟨3/20000⟩ : Hertz) DutyCycle.Half =
      1 - 3/20000 := by
    show sample_saw 1 2 ⟨3/20000⟩ = _
    unfold sample_saw saw
    rw [rustFmod1_eq_self (by norm_num) (by norm_num)]
    norm_num
  have hv0 : OscillatorType.Saw.sample_index 1 2 (⟨0⟩ : Hertz) DutyCycle.Half = 1 := by
    show sample_saw 1 2 ⟨0⟩ = _
    unfold sample_saw saw
    rw [rustFmod1_eq_self (by norm_num) (by norm_num)]
    norm_num
  rw [hv1, hv0] at h1
  norm_num at h1

/-- **C3 (amended).** Starting from an empty allocator, if a first
`lookup_or_allocate (osc, f1, duty)` succeeds and the next
`lookup_or_allocate (osc, f2, duty)` with `|f1 − f2| ≤ 0.0001` Hz
succeeds, the second call returns exactly the table contents the first
call returned.  (The original claim, quantifying over arbitrary
allocator states, fails because the epsilon equality is not
transitive; see the counterexample.) -/
theorem lookup_or_allocate_sharing_from_empty (rate cap : ℕ) (osc : OscillatorType)
    (f1 f2 : Hertz) (d : DutyCycle) (t1 : List ℝ)
    (heps : |f1.val - f2.val| ≤ 0.0001)
    (h1 : ((⟨rate, cap, []⟩ : OscillatorAllocator).lookup_or_allocate osc f1 d).1 =
      Except.ok t1) :
    (((⟨rate, cap, []⟩ :
        OscillatorAllocator).lookup_or_allocate osc f1 d).2.lookup_or_allocate
        osc f2 d).1 = Except.ok t1 := by
  obtain ⟨T, hT⟩ := build_table_ok_of_length osc (List.replicate rate 0) rate f1 d
    (List.length_replicate rate 0)
  rcases Nat.lt_or_ge 0 cap with hcap | hcap
  · have hc1 := lookup_or_allocate_miss ⟨rate, cap, []⟩ osc f1 d T List.find?_nil hT
      (by simpa using hcap)
    rw [hc1] at h1 ⊢
    simp only [List.nil_append] at h1 ⊢
    injection h1 with h1
    have hc2 := lookup_or_allocate_hit ⟨rate, cap, [((osc, f1, d), T)]⟩ osc f2 d
      ((osc, f1, d), T)
      (List.find?_cons_of_pos _ (decide_eq_true ⟨rfl, heps, rfl⟩))
    rw [hc2]
    dsimp only
    rw [h1]
  · exfalso
    interval_cases cap
    unfold OscillatorAllocator.lookup_or_allocate at h1
    rw [List.find?_nil, hT] at h1
    simp at h1

/-- Witness for the amended C3: two calls at the same frequency share
the table. -/
theorem lookup_or_allocate_sharing_from_empty_witness :
    (((⟨1, 1, []⟩ :
        OscillatorAllocator).lookup_or_allocate OscillatorType.Saw ⟨0⟩
        DutyCycle.Half).2.lookup_or_allocate OscillatorType.Saw ⟨0⟩ DutyCycle.Half).1 =
      Except.ok ((List.range 1).map fun i =>
        OscillatorType.Saw.sample_index i 1 ⟨0⟩ DutyCycle.Half) := by
  have hT : OscillatorType.Saw.build_table (List.replicate 1 0) 1 ⟨0⟩ DutyCycle.Half =
      Except.ok ((List.range 1).map fun i =>
        OscillatorType.Saw.sample_index i 1 ⟨0⟩ DutyCycle.Half) := rfl
  have hc1 := lookup_or_allocate_miss ⟨1, 1, []⟩ OscillatorType.Saw ⟨0⟩ DutyCycle.Half _
    List.find?_nil hT (by norm_num)
  have h1 : ((⟨1, 1, []⟩ :
      OscillatorAllocator).lookup_or_allocate OscillatorType.Saw ⟨0⟩ DutyCycle.Half).1 =
      Except.ok ((List.range 1).map fun i =>
        OscillatorType.Saw.sample_index i 1 ⟨0⟩ DutyCycle.Half) := by
    rw [hc1]
  exact lookup_or_allocate_sharing_from_empty 1 1 OscillatorType.Saw ⟨0⟩ ⟨0⟩
    DutyCycle.Half _ (by norm_num) h1

/-! ## Variable-shape oscillator — oscillator/variable.rs

This module uses no transcendental functions, so its `f32` arithmetic
is modelled over `ℚ`. -/

/-- `compute_naive_sample` (variable.rs lines 11-29). -/
def compute_naive_sample (phase pw slope_up slope_down triangle_amount square_amount : ℚ) :
    ℚ :=
  let saw := phase
  let square : ℚ := if phase < pw then 0 else 1
  let triangle : ℚ :=
    if phase < pw then phase * slope_up else 1 - (phase - pw) * slope_down
  let saw := saw + (square - saw) * square_amount
  let saw := saw + (triangle - saw) * triangle_amount
  saw

/-- `this_blep_sample` (lines 32-34). -/
def this_blep_sample (t : ℚ) : ℚ := 0.5 * t * t

/-- `next_blep_sample` (lines 37-40). -/
def next_blep_sample (t : ℚ) : ℚ :=
  let t := 1 - t;
  -0.5 * t * t

/-- `next_integrated_blep_sample` (lines 43-48). -/
def next_integrated_blep_sample (t : ℚ) : ℚ :=
  let t1 := 0.5 * t
  let t2 := t1 * t1
  let t4 := t2 * t2
  0.1875 - t1 + 1.5 * t2 - t4

/-- `this_integrated_blep_sample` (lines 51-53). -/
def this_integrated_blep_sample (t : ℚ) : ℚ := next_integrated_blep_sample (1 - t)

/-- `VariableShapeOscillator` (lines 58-76), field for field. -/
structure VariableShapeOscillator where
  sample_rate : ℕ
  enable_sync : Bool
  master_phase : ℚ
  slave_phase : ℚ
  next_sample : ℚ
  previous_pw : ℚ
  high : Bool
  master_frequency : ℚ
  slave_frequency : ℚ
  pulse_width : ℚ
  waveshape : ℚ

/-- `set_frequency` (lines 107-110). -/
def VariableShapeOscillator.set_frequency (o : VariableShapeOscillator) (frequency : Hertz) :
    VariableShapeOscillator :=
  let freq : ℚ := frequency.val / o.sample_rate
  { o with master_frequency := if freq ≥ 0.25 then 0.25 else freq }

/-- Rust's `f32::clamp(min, max)` (panics when `min > max`, which the
one call site excludes by construction). -/
def rustClamp (x lo hi : ℚ) : ℚ := if x < lo then lo else if x > hi then hi else x

/-- `set_pulse_width` (lines 113-120). -/
def VariableShapeOscillator.set_pulse_width (o : VariableShapeOscillator) (pw : ℚ) :
    VariableShapeOscillator :=
  if o.slave_frequency ≥ 0.25 then { o with pulse_width := 0.5 }
  else
    { o with
      pulse_width := rustClamp pw (o.slave_frequency * 2) (1 - 2 * o.slave_frequency) }

/-- `set_waveshape` (lines 125-127). -/
def VariableShapeOscillator.set_waveshape (o : VariableShapeOscillator) (waveshape : ℚ) :
    VariableShapeOscillator :=
  { o with waveshape := waveshape }

/-- `set_sync` (lines 130-132). -/
def VariableShapeOscillator.set_sync (o : VariableShapeOscillator) (sync : Bool) :
    VariableShapeOscillator :=
  { o with enable_sync := sync }

/-- `set_sync_frequency` (lines 135-139). -/
def VariableShapeOscillator.set_sync_frequency (o : VariableShapeOscillator)
    (frequency : Hertz) : VariableShapeOscillator :=
  let freq : ℚ := frequency.val / o.sample_rate
  { o with
    pulse_width := if freq ≥ 0.25 then 0.5 else o.pulse_width
    slave_frequency := if freq ≥ 0.25 then 0.25 else freq }

/-- `VariableShapeOscillator::new` (lines 79-104). -/
def VariableShapeOscillator.new (sample_rate : ℕ) : VariableShapeOscillator :=
  let o : VariableShapeOscillator :=
    { sample_rate := sample_rate
      enable_sync := false
      master_phase := 0
      slave_phase := 0
      next_sample := 0
      previous_pw := 0.5
      high := false
      master_frequency := 0
      slave_frequency := 0.1
      pulse_width := 0.5
      waveshape := 0 }
  ((((o.set_frequency ⟨440⟩).set_waveshape 0).set_pulse_width 0).set_sync
    false).set_sync_frequency ⟨220⟩

/-- The mutable state of `sample`'s BLEP while-loop: the slave phase,
the half-cycle flag and the two correction accumulators. -/
structure BlepLoopState where
  slave_phase : ℚ
  high : Bool
  this_sample : ℚ
  next_sample : ℚ

/-- The `while transition_during_reset || !reset` loop body of `sample`
(variable.rs lines 190-224), entered only when its condition holds.
Each pass either breaks (the returned state) or lowers the slave phase
by one and recurses; the loop condition itself never changes inside
the body, so the loop is modelled by this recursion alone. -/
def blepLoop (pw previous_pw slave_frequency slope_up slope_down triangle_amount
    square_amount : ℚ) (slave_phase : ℚ) (high : Bool) (this_sample next_sample : ℚ) :
    BlepLoopState :=
  if !high ∧ slave_phase < pw then
    ⟨slave_phase, high, this_sample, next_sample⟩
  else
    let t1 := (slave_phase - pw) / (previous_pw - pw + slave_frequency)
    let triangle_step := (slope_up + slope_down) * slave_frequency * triangle_amount
    let this1 := if high then this_sample else
      this_sample + square_amount * this_blep_sample t1
        - triangle_step * this_integrated_blep_sample t1
    let next1 := if high then next_sample else
      next_sample + square_amount * next_blep_sample t1
        - triangle_step * next_integrated_blep_sample t1
    if slave_phase < 1 then
      ⟨slave_phase, true, this1, next1⟩
    else
      let t2 := (slave_phase - 1) / slave_frequency
      blepLoop pw previous_pw slave_frequency slope_up slope_down triangle_amount
        square_amount (slave_phase - 1) false
        (this1 - (1 - triangle_amount) * this_blep_sample t2
          + triangle_step * this_integrated_blep_sample t2)
        (next1 - (1 - triangle_amount) * next_blep_sample t2
          + triangle_step * next_integrated_blep_sample t2)
termination_by (⌈slave_phase⌉).toNat
decreasing_by
  have h1 : (1 : ℚ) ≤ slave_phase := by linarith
  have h2 : (1 : ℤ) ≤ ⌈slave_phase⌉ := by
    calc (1 : ℤ) = ⌈(1 : ℚ)⌉ := by norm_num
      _ ≤ ⌈slave_phase⌉ := Int.ceil_le_ceil h1
  have h3 : ⌈slave_phase - 1⌉ = ⌈slave_phase⌉ - 1 := by
    rw [show slave_phase - 1 = slave_phase + (-1 : ℤ) by push_cast; ring, Int.ceil_add_int]
    omega
  omega

/-- `VariableShapeOscillator::sample` (lines 142-244).  The hard-sync
block yields the tuple `(master_phase, reset, transition_during_reset,
reset_time, this_sample, next_sample)`. -/
def VariableShapeOscillator.sample (o : VariableShapeOscillator) :
    ℚ × VariableShapeOscillator :=
  let this_sample := o.next_sample
  let next_sample : ℚ := 0
  let square_amount := max (o.waveshape - 0.5) 0 * 2
  let triangle_amount := max (1 - o.waveshape * 2) 0
  let slope_up := 1 / o.pulse_width
  let slope_down := 1 / (1 - o.pulse_width)
  let sync : ℚ × Bool × Bool × ℚ × ℚ × ℚ :=
    if o.enable_sync then
      let master_phase := o.master_phase + o.master_frequency
      if master_phase ≥ 1 then
        let master_phase := master_phase - 1
        let reset_time := master_phase / o.master_frequency
        let spr0 := o.slave_phase + (1 - reset_time) * o.slave_frequency
        let spr := if spr0 ≥ 1 then spr0 - 1 else spr0
        let transition0 := spr0 ≥ 1
        let transition : Bool :=
          if ¬ o.high ∧ spr ≥ o.pulse_width then true else transition0
        let value := compute_naive_sample spr o.pulse_width slope_up slope_down
          triangle_amount square_amount
        (master_phase, true, transition, reset_time,
          this_sample - value * this_blep_sample reset_time,
          next_sample - value * next_blep_sample reset_time)
      else (master_phase, false, false, 0, this_sample, next_sample)
    else (o.master_phase, false, false, 0, this_sample, next_sample)
  let master_phase := sync.1
  let reset := sync.2.1
  let transition_during_reset := sync.2.2.1
  let reset_time := sync.2.2.2.1
  let this_sample := sync.2.2.2.2.1
  let next_sample := sync.2.2.2.2.2
  let slave_phase := o.slave_phase + o.slave_frequency
  let st : BlepLoopState :=
    if transition_during_reset || !reset then
      blepLoop o.pulse_width o.previous_pw o.slave_frequency slope_up slope_down
        triangle_amount square_amount slave_phase o.high this_sample next_sample
    else ⟨slave_phase, o.high, this_sample, next_sample⟩
  let slave_phase := if o.enable_sync && reset then reset_time * o.slave_frequency
    else st.slave_phase
  let high := if o.enable_sync && reset then false else st.high
  let next_sample := st.next_sample + compute_naive_sample slave_phase o.pulse_width
    slope_up slope_down triangle_amount square_amount
  (2 * st.this_sample - 1,
    { o with
      master_phase := master_phase
      slave_phase := slave_phase
      next_sample := next_sample
      previous_pw := o.pulse_width
      high := high })

/-- Caller operations on a variable-shape oscillator. -/
inductive VarOp
  | setFrequency (f : Hertz)
  | setPulseWidth (pw : ℚ)
  | setWaveshape (w : ℚ)
  | setSync (b : Bool)
  | setSyncFrequency (f : Hertz)
  | sampleOp

def VariableShapeOscillator.runVarOp (o : VariableShapeOscillator) :
    VarOp → VariableShapeOscillator
  | VarOp.setFrequency f => o.set_frequency f
  | VarOp.setPulseWidth pw => o.set_pulse_width pw
  | VarOp.setWaveshape w => o.set_waveshape w
  | VarOp.setSync b => o.set_sync b
  | VarOp.setSyncFrequency f => o.set_sync_frequency f
  | VarOp.sampleOp => (o.sample).2

def VariableShapeOscillator.runVarOps (o : VariableShapeOscillator) :
    List VarOp → VariableShapeOscillator
  | [] => o
  | op :: ops => (o.runVarOp op).runVarOps ops

/-- `sample` never writes the two frequency fields. -/
lemma sample_preserves_frequencies (o : VariableShapeOscillator) :
    (o.sample).2.master_frequency = o.master_frequency ∧
      (o.sample).2.slave_frequency = o.slave_frequency :=
  ⟨rfl, rfl⟩

/-- Both stored phase increments are at most 0.25 cycles per sample. -/
def VarFreqInv (o : VariableShapeOscillator) : Prop :=
  o.master_frequency ≤ 0.25 ∧ o.slave_frequency ≤ 0.25

lemma varFreqInv_set_frequency (o : VariableShapeOscillator) (f : Hertz)
    (h : VarFreqInv o) : VarFreqInv (o.set_frequency f) := by
  obtain ⟨-, h2⟩ := h
  unfold VariableShapeOscillator.set_frequency VarFreqInv
  constructor
  · dsimp only
    split
    · norm_num
    · next hfreq => push_neg at hfreq; linarith
  · exact h2

lemma varFreqInv_set_sync_frequency (o : VariableShapeOscillator) (f : Hertz)
    (h : VarFreqInv o) : VarFreqInv (o.set_sync_frequency f) := by
  obtain ⟨h1, -⟩ := h
  unfold VariableShapeOscillator.set_sync_frequency VarFreqInv
  constructor
  · exact h1
  · dsimp only
    split
    · norm_num
    · next hfreq => push_neg at hfreq; linarith

lemma varFreqInv_runOp (o : VariableShapeOscillator) (op : VarOp) (h : VarFreqInv o) :
    VarFreqInv (o.runVarOp op) := by
  cases op with
  | setFrequency f => exact varFreqInv_set_frequency o f h
  | setPulseWidth pw =>
      show VarFreqInv (o.set_pulse_width pw)
      unfold VariableShapeOscillator.set_pulse_width
      split <;> exact h
  | setWaveshape w => exact h
  | setSync b => exact h
  | setSyncFrequency f => exact varFreqInv_set_sync_frequency o f h
  | sampleOp =>
      obtain ⟨hm, hs⟩ := sample_preserves_frequencies o
      exact ⟨hm ▸ h.1, hs ▸ h.2⟩

lemma varFreqInv_set_pulse_width (o : VariableShapeOscillator) (pw : ℚ)
    (h : VarFreqInv o) : VarFreqInv (o.set_pulse_width pw) := by
  unfold VariableShapeOscillator.set_pulse_width
  split <;> exact h

lemma varFreqInv_set_waveshape (o : VariableShapeOscillator) (w : ℚ)
    (h : VarFreqInv o) : VarFreqInv (o.set_waveshape w) := h

lemma varFreqInv_set_sync (o : VariableShapeOscillator) (b : Bool)
    (h : VarFreqInv o) : VarFreqInv (o.set_sync b) := h

lemma varFreqInv_new (rate : ℕ) : VarFreqInv (VariableShapeOscillator.new rate) := by
  unfold VariableShapeOscillator.new
  exact varFreqInv_set_sync_frequency _ _
    (varFreqInv_set_sync _ _
      (varFreqInv_set_pulse_width _ _
        (varFreqInv_set_waveshape _ _
          (varFreqInv_set_frequency _ _ ⟨by norm_num, by norm_num⟩))))

lemma varFreqInv_runOps (o : VariableShapeOscillator) (ops : List VarOp)
    (h : VarFreqInv o) : VarFreqInv (o.runVarOps ops) := by
  induction ops generalizing o with
  | nil => exact h
  | cons op ops ih => exact ih _ (varFreqInv_runOp o op h)

/-- **C9.** For every `VariableShapeOscillator` and every sequence of
setter and `sample()` calls with arbitrary arguments, the stored
per-sample phase increments of both the master and the slave
accumulator are at most 0.25 cycles per sample: the two frequency
setters clamp `frequency / sample_rate` at 0.25 and nothing else ever
writes those fields. -/
theorem variable_shape_phase_increments_clamped (rate : ℕ) (ops : List VarOp) :
    (VariableShapeOscillator.runVarOps (VariableShapeOscillator.new rate)
        ops).master_frequency ≤ 0.25 ∧
      (VariableShapeOscillator.runVarOps (VariableShapeOscillator.new rate)
        ops).slave_frequency ≤ 0.25 :=
  varFreqInv_runOps _ ops (varFreqInv_new rate)

/-! ## Sample Conversion Engine — conv.rs

The `conversions!` macro expands to one module per sample format
(`conv::i8`, …, `conv::f64`), each holding one `to_<target>` function
per other format; the embedding mirrors that layout as namespaces
`conv.i8` … `conv.f64` with one Lean definition per source function.

Modelling conventions for this section:

* Machine integers are `ℤ`.  Every shift/cast in the integer-to-integer
  functions stays in range for in-range inputs (the module doc comment
  says inputs are pre-validated), so `x << k` becomes `x * 2 ^ k` and
  the arithmetic right shift `x >> k` becomes `x / 2 ^ k` (Euclidean
  division on `ℤ` rounds toward `-∞` for positive divisors, exactly as
  the sign-extending shift does).  The wrapper types `I24`/`U24`/
  `I48`/`U48` are modelled by their inner integer value
  (`new_unchecked` and `.inner()` erase to the identity).
* `f32`/`f64` values are `ℚ`.  A float whose significand needs at most
  `p` bits is exact in `ℚ`, so the only operations that round are the
  int→float casts and `f64 as f32`; they are modelled by `roundF p`
  (round to nearest, ties to even, at a `p`-bit significand, unbounded
  exponent), with `p = 24` for `f32` and `p = 53` for `f64`.
  Multiplying or dividing by the power-of-two scale constants
  (`128.0`, …, `9223372036854775808.0`) only shifts the exponent and is
  exact, so it is plain `ℚ` arithmetic.  Rust float→int `as` casts
  truncate toward zero and saturate at the target bounds (`truncQ`,
  `satCast`). -/

/-- Truncation toward zero, the rounding used by Rust float→int `as`. -/
def truncQ (q : ℚ) : ℤ := if 0 ≤ q then ⌊q⌋ else ⌈q⌉

/-- Rust float→int `as` cast with target range `[lo, hi]`: truncate
toward zero, then saturate at the bounds. -/
def satCast (lo hi : ℤ) (q : ℚ) : ℤ := max lo (min hi (truncQ q))

/-- Round to the nearest integer, ties to even. -/
def roundHalfEven (q : ℚ) : ℤ :=
  if q - ⌊q⌋ < 1 / 2 then ⌊q⌋
  else if 1 / 2 < q - ⌊q⌋ then ⌊q⌋ + 1
  else if ⌊q⌋ % 2 = 0 then ⌊q⌋ else ⌊q⌋ + 1

/-- Round a rational to a binary floating-point value with a `p`-bit
significand (round to nearest, ties to even; the exponent range is
unbounded, matching the rest of the development where float overflow
is never reached). -/
def roundF (p : ℕ) (q : ℚ) : ℚ :=
  if q = 0 then 0
  else (roundHalfEven (q / 2 ^ (Int.log 2 |q| - ((p : ℤ) - 1))) : ℚ)
      * 2 ^ (Int.log 2 |q| - ((p : ℤ) - 1))

/-- The rounding performed by an `as f32` cast: 24-bit significand. -/
def castF32 (q : ℚ) : ℚ := roundF 24 q

/-- The rounding performed by an `as f64` cast applied to a wider
value: 53-bit significand. -/
def castF64 (q : ℚ) : ℚ := roundF 53 q

/-! ### The conversion modules, in source order (conv.rs lines 135-565) -/

namespace conv.i8

@[simp] def to_i16 (s : ℤ) : ℤ := s * 2 ^ 8
@[simp] def to_i24 (s : ℤ) : ℤ := s * 2 ^ 16
@[simp] def to_i32 (s : ℤ) : ℤ := s * 2 ^ 24
@[simp] def to_i48 (s : ℤ) : ℤ := s * 2 ^ 40
@[simp] def to_i64 (s : ℤ) : ℤ := s * 2 ^ 56
@[simp] def to_u8 (s : ℤ) : ℤ := if s < 0 then s + 127 + 1 else s + 128
@[simp] def to_u16 (s : ℤ) : ℤ :=
  if s < 0 then (s + 127 + 1) * 2 ^ 8 else (s + 128) * 2 ^ 8
@[simp] def to_u24 (s : ℤ) : ℤ := (s + 128) * 2 ^ 16
@[simp] def to_u32 (s : ℤ) : ℤ :=
  if s < 0 then (s + 127 + 1) * 2 ^ 24 else (s + 128) * 2 ^ 24
@[simp] def to_u48 (s : ℤ) : ℤ := (s + 128) * 2 ^ 40
@[simp] def to_u64 (s : ℤ) : ℤ :=
  if s < 0 then (s + 127 + 1) * 2 ^ 56 else (s + 128) * 2 ^ 56
def to_f32 (s : ℤ) : ℚ := castF32 (s : ℚ) / 128
def to_f64 (s : ℤ) : ℚ := castF64 (s : ℚ) / 128

end conv.i8

namespace conv.i16

@[simp] def to_i8 (s : ℤ) : ℤ := s / 2 ^ 8
@[simp] def to_i24 (s : ℤ) : ℤ := s * 2 ^ 8
@[simp] def to_i32 (s : ℤ) : ℤ := s * 2 ^ 16
@[simp] def to_i48 (s : ℤ) : ℤ := s * 2 ^ 32
@[simp] def to_i64 (s : ℤ) : ℤ := s * 2 ^ 48
@[simp] def to_u8 (s : ℤ) : ℤ := conv.i8.to_u8 (to_i8 s)
@[simp] def to_u16 (s : ℤ) : ℤ := if s < 0 then s + 32767 + 1 else s + 32768
@[simp] def to_u24 (s : ℤ) : ℤ :=
  if s < 0 then (s + 32767 + 1) * 2 ^ 8 else (s + 32768) * 2 ^ 8
@[simp] def to_u32 (s : ℤ) : ℤ :=
  if s < 0 then (s + 32767 + 1) * 2 ^ 16 else (s + 32768) * 2 ^ 16
@[simp] def to_u48 (s : ℤ) : ℤ :=
  if s < 0 then (s + 32767 + 1) * 2 ^ 32 else (s + 32768) * 2 ^ 32
@[simp] def to_u64 (s : ℤ) : ℤ :=
  if s < 0 then (s + 32767 + 1) * 2 ^ 48 else (s + 32768) * 2 ^ 48
def to_f32 (s : ℤ) : ℚ := castF32 (s : ℚ) / 32768
def to_f64 (s : ℤ) : ℚ := castF64 (s : ℚ) / 32768

end conv.i16

namespace conv.i24

@[simp] def to_i8 (s : ℤ) : ℤ := s / 2 ^ 16
@[simp] def to_i16 (s : ℤ) : ℤ := s / 2 ^ 8
@[simp] def to_i32 (s : ℤ) : ℤ := s * 2 ^ 8
@[simp] def to_i48 (s : ℤ) : ℤ := s * 2 ^ 24
@[simp] def to_i64 (s : ℤ) : ℤ := s * 2 ^ 40
@[simp] def to_u8 (s : ℤ) : ℤ := conv.i8.to_u8 (to_i8 s)
@[simp] def to_u16 (s : ℤ) : ℤ := conv.i16.to_u16 (to_i16 s)
@[simp] def to_u24 (s : ℤ) : ℤ := s + 8388608
@[simp] def to_u32 (s : ℤ) : ℤ := (s + 8388608) * 2 ^ 8
@[simp] def to_u48 (s : ℤ) : ℤ := (s + 8388608) * 2 ^ 24
@[simp] def to_u64 (s : ℤ) : ℤ := (s + 8388608) * 2 ^ 40
def to_f32 (s : ℤ) : ℚ := castF32 (s : ℚ) / 8388608
def to_f64 (s : ℤ) : ℚ := castF64 (s : ℚ) / 8388608

end conv.i24

namespace conv.i32

@[simp] def to_i8 (s : ℤ) : ℤ := s / 2 ^ 24
@[simp] def to_i16 (s : ℤ) : ℤ := s / 2 ^ 16
@[simp] def to_i24 (s : ℤ) : ℤ := s / 2 ^ 8
@[simp] def to_i48 (s : ℤ) : ℤ := s * 2 ^ 16
@[simp] def to_i64 (s : ℤ) : ℤ := s * 2 ^ 32
@[simp] def to_u8 (s : ℤ) : ℤ := conv.i8.to_u8 (to_i8 s)
@[simp] def to_u16 (s : ℤ) : ℤ := conv.i16.to_u16 (to_i16 s)
@[simp] def to_u24 (s : ℤ) : ℤ := conv.i24.to_u24 (to_i24 s)
@[simp] def to_u32 (s : ℤ) : ℤ :=
  if s < 0 then s + 2147483647 + 1 else s + 2147483648
@[simp] def to_u48 (s : ℤ) : ℤ := (s + 2147483648) * 2 ^ 16
@[simp] def to_u64 (s : ℤ) : ℤ :=
  if s < 0 then (s + 2147483647 + 1) * 2 ^ 32 else (s + 2147483648) * 2 ^ 32
def to_f32 (s : ℤ) : ℚ := castF32 (s : ℚ) / 2147483648
def to_f64 (s : ℤ) : ℚ := castF64 (s : ℚ) / 2147483648

end conv.i32

namespace conv.i48

@[simp] def to_i8 (s : ℤ) : ℤ := s / 2 ^ 40
@[simp] def to_i16 (s : ℤ) : ℤ := s / 2 ^ 32
@[simp] def to_i24 (s : ℤ) : ℤ := s / 2 ^ 24
@[simp] def to_i32 (s : ℤ) : ℤ := s / 2 ^ 16
@[simp] def to_i64 (s : ℤ) : ℤ := s * 2 ^ 16
@[simp] def to_u8 (s : ℤ) : ℤ := conv.i8.to_u8 (to_i8 s)
@[simp] def to_u16 (s : ℤ) : ℤ := conv.i16.to_u16 (to_i16 s)
@[simp] def to_u24 (s : ℤ) : ℤ := conv.i24.to_u24 (to_i24 s)
@[simp] def to_u32 (s : ℤ) : ℤ := conv.i32.to_u32 (to_i32 s)
@[simp] def to_u48 (s : ℤ) : ℤ := s + 140737488355328
@[simp] def to_u64 (s : ℤ) : ℤ := (s + 140737488355328) * 2 ^ 16
def to_f32 (s : ℤ) : ℚ := castF32 (s : ℚ) / 140737488355328
def to_f64 (s : ℤ) : ℚ := castF64 (s : ℚ) / 140737488355328

end conv.i48

namespace conv.i64

@[simp] def to_i8 (s : ℤ) : ℤ := s / 2 ^ 56
@[simp] def to_i16 (s : ℤ) : ℤ := s / 2 ^ 48
@[simp] def to_i24 (s : ℤ) : ℤ := s / 2 ^ 40
@[simp] def to_i32 (s : ℤ) : ℤ := s / 2 ^ 32
@[simp] def to_i48 (s : ℤ) : ℤ := s / 2 ^ 16
@[simp] def to_u8 (s : ℤ) : ℤ := conv.i8.to_u8 (to_i8 s)
@[simp] def to_u16 (s : ℤ) : ℤ := conv.i16.to_u16 (to_i16 s)
@[simp] def to_u24 (s : ℤ) : ℤ := conv.i24.to_u24 (to_i24 s)
@[simp] def to_u32 (s : ℤ) : ℤ := conv.i32.to_u32 (to_i32 s)
@[simp] def to_u48 (s : ℤ) : ℤ := conv.i48.to_u48 (to_i48 s)
@[simp] def to_u64 (s : ℤ) : ℤ :=
  if s < 0 then s + 9223372036854775807 + 1 else s + 9223372036854775808
def to_f32 (s : ℤ) : ℚ := castF32 (s : ℚ) / 9223372036854775808
def to_f64 (s : ℤ) : ℚ := castF64 (s : ℚ) / 9223372036854775808

end conv.i64

namespace conv.u8

@[simp] def to_i8 (s : ℤ) : ℤ := if s < 128 then s - 127 - 1 else s - 128
@[simp] def to_i16 (s : ℤ) : ℤ := (s - 128) * 2 ^ 8
@[simp] def to_i24 (s : ℤ) : ℤ := (s - 128) * 2 ^ 16
@[simp] def to_i32 (s : ℤ) : ℤ := (s - 128) * 2 ^ 24
@[simp] def to_i48 (s : ℤ) : ℤ := (s - 128) * 2 ^ 40
@[simp] def to_i64 (s : ℤ) : ℤ := (s - 128) * 2 ^ 56
@[simp] def to_u16 (s : ℤ) : ℤ := s * 2 ^ 8
@[simp] def to_u24 (s : ℤ) : ℤ := s * 2 ^ 16
@[simp] def to_u32 (s : ℤ) : ℤ := s * 2 ^ 24
@[simp] def to_u48 (s : ℤ) : ℤ := s * 2 ^ 40
@[simp] def to_u64 (s : ℤ) : ℤ := s * 2 ^ 56
def to_f32 (s : ℤ) : ℚ := conv.i8.to_f32 (to_i8 s)
def to_f64 (s : ℤ) : ℚ := conv.i8.to_f64 (to_i8 s)

end conv.u8

namespace conv.u16

@[simp] def to_u8 (s : ℤ) : ℤ := s / 2 ^ 8
@[simp] def to_i8 (s : ℤ) : ℤ := conv.u8.to_i8 (to_u8 s)
@[simp] def to_i16 (s : ℤ) : ℤ :=
  if s < 32768 then s - 32767 - 1 else s - 32768
@[simp] def to_i24 (s : ℤ) : ℤ := (s - 32768) * 2 ^ 8
@[simp] def to_i32 (s : ℤ) : ℤ := (s - 32768) * 2 ^ 16
@[simp] def to_i48 (s : ℤ) : ℤ := (s - 32768) * 2 ^ 32
@[simp] def to_i64 (s : ℤ) : ℤ := (s - 32768) * 2 ^ 48
@[simp] def to_u24 (s : ℤ) : ℤ := s * 2 ^ 8
@[simp] def to_u32 (s : ℤ) : ℤ := s * 2 ^ 16
@[simp] def to_u48 (s : ℤ) : ℤ := s * 2 ^ 32
@[simp] def to_u64 (s : ℤ) : ℤ := s * 2 ^ 48
def to_f32 (s : ℤ) : ℚ := conv.i16.to_f32 (to_i16 s)
def to_f64 (s : ℤ) : ℚ := conv.i16.to_f64 (to_i16 s)

end conv.u16

namespace conv.u24

@[simp] def to_u8 (s : ℤ) : ℤ := s / 2 ^ 16
@[simp] def to_u16 (s : ℤ) : ℤ := s / 2 ^ 8
@[simp] def to_i8 (s : ℤ) : ℤ := conv.u8.to_i8 (to_u8 s)
@[simp] def to_i16 (s : ℤ) : ℤ := conv.u16.to_i16 (to_u16 s)
@[simp] def to_i24 (s : ℤ) : ℤ := s - 8388608
@[simp] def to_i32 (s : ℤ) : ℤ := (s - 8388608) * 2 ^ 8
@[simp] def to_i48 (s : ℤ) : ℤ := (s - 8388608) * 2 ^ 24
@[simp] def to_i64 (s : ℤ) : ℤ := (s - 8388608) * 2 ^ 40
@[simp] def to_u32 (s : ℤ) : ℤ := s * 2 ^ 8
@[simp] def to_u48 (s : ℤ) : ℤ := s * 2 ^ 24
@[simp] def to_u64 (s : ℤ) : ℤ := s * 2 ^ 40
def to_f32 (s : ℤ) : ℚ := conv.i24.to_f32 (to_i24 s)
def to_f64 (s : ℤ) : ℚ := conv.i24.to_f64 (to_i24 s)

end conv.u24

namespace conv.u32

@[simp] def to_u8 (s : ℤ) : ℤ := s / 2 ^ 24
@[simp] def to_u16 (s : ℤ) : ℤ := s / 2 ^ 16
@[simp] def to_u24 (s : ℤ) : ℤ := s / 2 ^ 8
@[simp] def to_i8 (s : ℤ) : ℤ := conv.u8.to_i8 (to_u8 s)
@[simp] def to_i16 (s : ℤ) : ℤ := conv.u16.to_i16 (to_u16 s)
@[simp] def to_i24 (s : ℤ) : ℤ := conv.u24.to_i24 (to_u24 s)
@[simp] def to_i32 (s : ℤ) : ℤ :=
  if s < 2147483648 then s - 2147483647 - 1 else s - 2147483648
@[simp] def to_i48 (s : ℤ) : ℤ := (s - 2147483648) * 2 ^ 16
@[simp] def to_i64 (s : ℤ) : ℤ := (s - 2147483648) * 2 ^ 32
@[simp] def to_u48 (s : ℤ) : ℤ := s * 2 ^ 16
@[simp] def to_u64 (s : ℤ) : ℤ := s * 2 ^ 32
def to_f32 (s : ℤ) : ℚ := conv.i32.to_f32 (to_i32 s)
def to_f64 (s : ℤ) : ℚ := conv.i32.to_f64 (to_i32 s)

end conv.u32

namespace conv.u48

@[simp] def to_u8 (s : ℤ) : ℤ := s / 2 ^ 40
@[simp] def to_u16 (s : ℤ) : ℤ := s / 2 ^ 32
@[simp] def to_u24 (s : ℤ) : ℤ := s / 2 ^ 24
@[simp] def to_u32 (s : ℤ) : ℤ := s / 2 ^ 16
@[simp] def to_i8 (s : ℤ) : ℤ := conv.u8.to_i8 (to_u8 s)
@[simp] def to_i16 (s : ℤ) : ℤ := conv.u16.to_i16 (to_u16 s)
@[simp] def to_i24 (s : ℤ) : ℤ := conv.u24.to_i24 (to_u24 s)
@[simp] def to_i32 (s : ℤ) : ℤ := conv.u32.to_i32 (to_u32 s)
@[simp] def to_i48 (s : ℤ) : ℤ := s - 140737488355328
@[simp] def to_i64 (s : ℤ) : ℤ := (s - 140737488355328) * 2 ^ 16
@[simp] def to_u64 (s : ℤ) : ℤ := s * 2 ^ 16
def to_f32 (s : ℤ) : ℚ := conv.i48.to_f32 (to_i48 s)
def to_f64 (s : ℤ) : ℚ := conv.i48.to_f64 (to_i48 s)

end conv.u48

namespace conv.u64

@[simp] def to_u8 (s : ℤ) : ℤ := s / 2 ^ 56
@[simp] def to_u16 (s : ℤ) : ℤ := s / 2 ^ 48
@[simp] def to_u24 (s : ℤ) : ℤ := s / 2 ^ 40
@[simp] def to_u32 (s : ℤ) : ℤ := s / 2 ^ 32
@[simp] def to_u48 (s : ℤ) : ℤ := s / 2 ^ 16
@[simp] def to_i8 (s : ℤ) : ℤ := conv.u8.to_i8 (to_u8 s)
@[simp] def to_i16 (s : ℤ) : ℤ := conv.u16.to_i16 (to_u16 s)
@[simp] def to_i24 (s : ℤ) : ℤ := conv.u24.to_i24 (to_u24 s)
@[simp] def to_i32 (s : ℤ) : ℤ := conv.u32.to_i32 (to_u32 s)
@[simp] def to_i48 (s : ℤ) : ℤ := conv.u48.to_i48 (to_u48 s)
@[simp] def to_i64 (s : ℤ) : ℤ :=
  if s < 9223372036854775808 then s - 9223372036854775807 - 1
  else s - 9223372036854775808
def to_f32 (s : ℤ) : ℚ := conv.i64.to_f32 (to_i64 s)
def to_f64 (s : ℤ) : ℚ := conv.i64.to_f64 (to_i64 s)

end conv.u64

namespace conv.f32

def to_i8 (s : ℚ) : ℤ := satCast (-128) 127 (s * 128)
def to_i16 (s : ℚ) : ℤ := satCast (-32768) 32767 (s * 32768)
def to_i24 (s : ℚ) : ℤ := satCast (-2147483648) 2147483647 (s * 8388608)
def to_i32 (s : ℚ) : ℤ := satCast (-2147483648) 2147483647 (s * 2147483648)
def to_i48 (s : ℚ) : ℤ :=
  satCast (-9223372036854775808) 9223372036854775807 (s * 140737488355328)
def to_i64 (s : ℚ) : ℤ :=
  satCast (-9223372036854775808) 9223372036854775807 (s * 9223372036854775808)
def to_u8 (s : ℚ) : ℤ := conv.i8.to_u8 (to_i8 s)
def to_u16 (s : ℚ) : ℤ := conv.i16.to_u16 (to_i16 s)
def to_u24 (s : ℚ) : ℤ := conv.i24.to_u24 (to_i24 s)
def to_u32 (s : ℚ) : ℤ := conv.i32.to_u32 (to_i32 s)
def to_u48 (s : ℚ) : ℤ := conv.i48.to_u48 (to_i48 s)
def to_u64 (s : ℚ) : ℤ := conv.i64.to_u64 (to_i64 s)
def to_f64 (s : ℚ) : ℚ := s

end conv.f32

namespace conv.f64

def to_i8 (s : ℚ) : ℤ := satCast (-128) 127 (s * 128)
def to_i16 (s : ℚ) : ℤ := satCast (-32768) 32767 (s * 32768)
def to_i24 (s : ℚ) : ℤ := satCast (-2147483648) 2147483647 (s * 8388608)
def to_i32 (s : ℚ) : ℤ := satCast (-2147483648) 2147483647 (s * 2147483648)
def to_i48 (s : ℚ) : ℤ :=
  satCast (-9223372036854775808) 9223372036854775807 (s * 140737488355328)
def to_i64 (s : ℚ) : ℤ :=
  satCast (-9223372036854775808) 9223372036854775807 (s * 9223372036854775808)
def to_u8 (s : ℚ) : ℤ := conv.i8.to_u8 (to_i8 s)
def to_u16 (s : ℚ) : ℤ := conv.i16.to_u16 (to_i16 s)
def to_u24 (s : ℚ) : ℤ := conv.i24.to_u24 (to_i24 s)
def to_u32 (s : ℚ) : ℤ := conv.i32.to_u32 (to_i32 s)
def to_u48 (s : ℚ) : ℤ := conv.i48.to_u48 (to_i48 s)
def to_u64 (s : ℚ) : ℤ := conv.i64.to_u64 (to_i64 s)
def to_f32 (s : ℚ) : ℚ := castF32 s

end conv.f64

/-! ### Formats, ranges, and the dispatching conversion function -/

/-- The twelve integer sample formats of conv.rs. -/
inductive IntFmt
  | i8 | i16 | i24 | i32 | i48 | i64
  | u8 | u16 | u24 | u32 | u48 | u64
deriving DecidableEq

/-- Bit width of an integer format. -/
@[simp] def width : IntFmt → ℕ
  | .i8 => 8
  | .i16 => 16
  | .i24 => 24
  | .i32 => 32
  | .i48 => 48
  | .i64 => 64
  | .u8 => 8
  | .u16 => 16
  | .u24 => 24
  | .u32 => 32
  | .u48 => 48
  | .u64 => 64

/-- The representable values of an integer format. -/
@[simp] def inRange : IntFmt → ℤ → Prop
  | .i8 => fun x => -128 ≤ x ∧ x < 128
  | .i16 => fun x => -32768 ≤ x ∧ x < 32768
  | .i24 => fun x => -8388608 ≤ x ∧ x < 8388608
  | .i32 => fun x => -2147483648 ≤ x ∧ x < 2147483648
  | .i48 => fun x => -140737488355328 ≤ x ∧ x < 140737488355328
  | .i64 => fun x => -9223372036854775808 ≤ x ∧ x < 9223372036854775808
  | .u8 => fun x => 0 ≤ x ∧ x < 256
  | .u16 => fun x => 0 ≤ x ∧ x < 65536
  | .u24 => fun x => 0 ≤ x ∧ x < 16777216
  | .u32 => fun x => 0 ≤ x ∧ x < 4294967296
  | .u48 => fun x => 0 ≤ x ∧ x < 281474976710656
  | .u64 => fun x => 0 ≤ x ∧ x < 18446744073709551616

/-- Dispatch from `i8` (the `A = A` arm is the blanket
`impl FromSample<S> for S`, conv.rs lines 574-579). -/
@[simp] def fromI8 : IntFmt → ℤ → ℤ
  | .i8 => fun s => s
  | .i16 => conv.i8.to_i16
  | .i24 => conv.i8.to_i24
  | .i32 => conv.i8.to_i32
  | .i48 => conv.i8.to_i48
  | .i64 => conv.i8.to_i64
  | .u8 => conv.i8.to_u8
  | .u16 => conv.i8.to_u16
  | .u24 => conv.i8.to_u24
  | .u32 => conv.i8.to_u32
  | .u48 => conv.i8.to_u48
  | .u64 => conv.i8.to_u64

/-- Dispatch from `i16`. -/
@[simp] def fromI16 : IntFmt → ℤ → ℤ
  | .i8 => conv.i16.to_i8
  | .i16 => fun s => s
  | .i24 => conv.i16.to_i24
  | .i32 => conv.i16.to_i32
  | .i48 => conv.i16.to_i48
  | .i64 => conv.i16.to_i64
  | .u8 => conv.i16.to_u8
  | .u16 => conv.i16.to_u16
  | .u24 => conv.i16.to_u24
  | .u32 => conv.i16.to_u32
  | .u48 => conv.i16.to_u48
  | .u64 => conv.i16.to_u64

/-- Dispatch from `I24`. -/
@[simp] def fromI24 : IntFmt → ℤ → ℤ
  | .i8 => conv.i24.to_i8
  | .i16 => conv.i24.to_i16
  | .i24 => fun s => s
  | .i32 => conv.i24.to_i32
  | .i48 => conv.i24.to_i48
  | .i64 => conv.i24.to_i64
  | .u8 => conv.i24.to_u8
  | .u16 => conv.i24.to_u16
  | .u24 => conv.i24.to_u24
  | .u32 => conv.i24.to_u32
  | .u48 => conv.i24.to_u48
  | .u64 => conv.i24.to_u64

/-- Dispatch from `i32`. -/
@[simp] def fromI32 : IntFmt → ℤ → ℤ
  | .i8 => conv.i32.to_i8
  | .i16 => conv.i32.to_i16
  | .i24 => conv.i32.to_i24
  | .i32 => fun s => s
  | .i48 => conv.i32.to_i48
  | .i64 => conv.i32.to_i64
  | .u8 => conv.i32.to_u8
  | .u16 => conv.i32.to_u16
  | .u24 => conv.i32.to_u24
  | .u32 => conv.i32.to_u32
  | .u48 => conv.i32.to_u48
  | .u64 => conv.i32.to_u64

/-- Dispatch from `I48`. -/
@[simp] def fromI48 : IntFmt → ℤ → ℤ
  | .i8 => conv.i48.to_i8
  | .i16 => conv.i48.to_i16
  | .i24 => conv.i48.to_i24
  | .i32 => conv.i48.to_i32
  | .i48 => fun s => s
  | .i64 => conv.i48.to_i64
  | .u8 => conv.i48.to_u8
  | .u16 => conv.i48.to_u16
  | .u24 => conv.i48.to_u24
  | .u32 => conv.i48.to_u32
  | .u48 => conv.i48.to_u48
  | .u64 => conv.i48.to_u64

/-- Dispatch from `i64`. -/
@[simp] def fromI64 : IntFmt → ℤ → ℤ
  | .i8 => conv.i64.to_i8
  | .i16 => conv.i64.to_i16
  | .i24 => conv.i64.to_i24
  | .i32 => conv.i64.to_i32
  | .i48 => conv.i64.to_i48
  | .i64 => fun s => s
  | .u8 => conv.i64.to_u8
  | .u16 => conv.i64.to_u16
  | .u24 => conv.i64.to_u24
  | .u32 => conv.i64.to_u32
  | .u48 => conv.i64.to_u48
  | .u64 => conv.i64.to_u64

/-- Dispatch from `u8`. -/
@[simp] def fromU8 : IntFmt → ℤ → ℤ
  | .i8 => conv.u8.to_i8
  | .i16 => conv.u8.to_i16
  | .i24 => conv.u8.to_i24
  | .i32 => conv.u8.to_i32
  | .i48 => conv.u8.to_i48
  | .i64 => conv.u8.to_i64
  | .u8 => fun s => s
  | .u16 => conv.u8.to_u16
  | .u24 => conv.u8.to_u24
  | .u32 => conv.u8.to_u32
  | .u48 => conv.u8.to_u48
  | .u64 => conv.u8.to_u64

/-- Dispatch from `u16`. -/
@[simp] def fromU16 : IntFmt → ℤ → ℤ
  | .i8 => conv.u16.to_i8
  | .i16 => conv.u16.to_i16
  | .i24 => conv.u16.to_i24
  | .i32 => conv.u16.to_i32
  | .i48 => conv.u16.to_i48
  | .i64 => conv.u16.to_i64
  | .u8 => conv.u16.to_u8
  | .u16 => fun s => s
  | .u24 => conv.u16.to_u24
  | .u32 => conv.u16.to_u32
  | .u48 => conv.u16.to_u48
  | .u64 => conv.u16.to_u64

/-- Dispatch from `U24`. -/
@[simp] def fromU24 : IntFmt → ℤ → ℤ
  | .i8 => conv.u24.to_i8
  | .i16 => conv.u24.to_i16
  | .i24 => conv.u24.to_i24
  | .i32 => conv.u24.to_i32
  | .i48 => conv.u24.to_i48
  | .i64 => conv.u24.to_i64
  | .u8 => conv.u24.to_u8
  | .u16 => conv.u24.to_u16
  | .u24 => fun s => s
  | .u32 => conv.u24.to_u32
  | .u48 => conv.u24.to_u48
  | .u64 => conv.u24.to_u64

/-- Dispatch from `u32`. -/
@[simp] def fromU32 : IntFmt → ℤ → ℤ
  | .i8 => conv.u32.to_i8
  | .i16 => conv.u32.to_i16
  | .i24 => conv.u32.to_i24
  | .i32 => conv.u32.to_i32
  | .i48 => conv.u32.to_i48
  | .i64 => conv.u32.to_i64
  | .u8 => conv.u32.to_u8
  | .u16 => conv.u32.to_u16
  | .u24 => conv.u32.to_u24
  | .u32 => fun s => s
  | .u48 => conv.u32.to_u48
  | .u64 => conv.u32.to_u64

/-- Dispatch from `U48`. -/
@[simp] def fromU48 : IntFmt → ℤ → ℤ
  | .i8 => conv.u48.to_i8
  | .i16 => conv.u48.to_i16
  | .i24 => conv.u48.to_i24
  | .i32 => conv.u48.to_i32
  | .i48 => conv.u48.to_i48
  | .i64 => conv.u48.to_i64
  | .u8 => conv.u48.to_u8
  | .u16 => conv.u48.to_u16
  | .u24 => conv.u48.to_u24
  | .u32 => conv.u48.to_u32
  | .u48 => fun s => s
  | .u64 => conv.u48.to_u64

/-- Dispatch from `u64`. -/
@[simp] def fromU64 : IntFmt → ℤ → ℤ
  | .i8 => conv.u64.to_i8
  | .i16 => conv.u64.to_i16
  | .i24 => conv.u64.to_i24
  | .i32 => conv.u64.to_i32
  | .i48 => conv.u64.to_i48
  | .i64 => conv.u64.to_i64
  | .u8 => conv.u64.to_u8
  | .u16 => conv.u64.to_u16
  | .u24 => conv.u64.to_u24
  | .u32 => conv.u64.to_u32
  | .u48 => conv.u64.to_u48
  | .u64 => fun s => s

/-- Integer-to-integer conversion `A → B`, assembled from the module
functions exactly as the `FromSample` impls dispatch them. -/
@[simp] def intConv : IntFmt → IntFmt → ℤ → ℤ
  | .i8 => fromI8
  | .i16 => fromI16
  | .i24 => fromI24
  | .i32 => fromI32
  | .i48 => fromI48
  | .i64 => fromI64
  | .u8 => fromU8
  | .u16 => fromU16
  | .u24 => fromU24
  | .u32 => fromU32
  | .u48 => fromU48
  | .u64 => fromU64

/-- Int→`f32` conversion per source format. -/
def toF32 : IntFmt → ℤ → ℚ
  | .i8 => conv.i8.to_f32
  | .i16 => conv.i16.to_f32
  | .i24 => conv.i24.to_f32
  | .i32 => conv.i32.to_f32
  | .i48 => conv.i48.to_f32
  | .i64 => conv.i64.to_f32
  | .u8 => conv.u8.to_f32
  | .u16 => conv.u16.to_f32
  | .u24 => conv.u24.to_f32
  | .u32 => conv.u32.to_f32
  | .u48 => conv.u48.to_f32
  | .u64 => conv.u64.to_f32

/-- `f32`→int conversion per target format. -/
def fromF32 : IntFmt → ℚ → ℤ
  | .i8 => conv.f32.to_i8
  | .i16 => conv.f32.to_i16
  | .i24 => conv.f32.to_i24
  | .i32 => conv.f32.to_i32
  | .i48 => conv.f32.to_i48
  | .i64 => conv.f32.to_i64
  | .u8 => conv.f32.to_u8
  | .u16 => conv.f32.to_u16
  | .u24 => conv.f32.to_u24
  | .u32 => conv.f32.to_u32
  | .u48 => conv.f32.to_u48
  | .u64 => conv.f32.to_u64

/-- Int→`f64` conversion per source format. -/
def toF64 : IntFmt → ℤ → ℚ
  | .i8 => conv.i8.to_f64
  | .i16 => conv.i16.to_f64
  | .i24 => conv.i24.to_f64
  | .i32 => conv.i32.to_f64
  | .i48 => conv.i48.to_f64
  | .i64 => conv.i64.to_f64
  | .u8 => conv.u8.to_f64
  | .u16 => conv.u16.to_f64
  | .u24 => conv.u24.to_f64
  | .u32 => conv.u32.to_f64
  | .u48 => conv.u48.to_f64
  | .u64 => conv.u64.to_f64

/-- `f64`→int conversion per target format. -/
def fromF64 : IntFmt → ℚ → ℤ
  | .i8 => conv.f64.to_i8
  | .i16 => conv.f64.to_i16
  | .i24 => conv.f64.to_i24
  | .i32 => conv.f64.to_i32
  | .i48 => conv.f64.to_i48
  | .i64 => conv.f64.to_i64
  | .u8 => conv.f64.to_u8
  | .u16 => conv.f64.to_u16
  | .u24 => conv.f64.to_u24
  | .u32 => conv.f64.to_u32
  | .u48 => conv.f64.to_u48
  | .u64 => conv.f64.to_u64

/-! ### Integer-to-integer round trips -/

/-- Widening (or equal-width, or same-format) integer conversions
compose with the reverse conversion to the identity on every in-range
value. -/
lemma intConv_round_trip (A B : IntFmt) (h : width A ≤ width B) :
    ∀ x : ℤ, inRange A x → intConv B A (intConv A B x) = x := by
  cases A <;> cases B <;>
    first
    | exact absurd h (by decide)
    | (intro x hx; norm_num at hx ⊢; done)
    | (intro x hx; norm_num at hx ⊢; omega)

/-- Strictly narrowing integer conversions are idempotent after the
first narrowing: narrowing, re-widening and narrowing again equals the
single narrowing. -/
lemma intConv_narrow_idem (A B : IntFmt) (h : width A < width B) :
    ∀ x : ℤ, inRange B x →
      intConv B A (intConv A B (intConv B A x)) = intConv B A x := by
  cases A <;> cases B <;>
    first
    | exact absurd h (by decide)
    | (intro x hx; norm_num at hx ⊢; done)
    | (intro x hx; norm_num at hx ⊢; omega)

/-! ### Elementary facts about truncation, saturation and rounding -/

lemma truncQ_intCast (n : ℤ) : truncQ (n : ℚ) = n := by
  unfold truncQ; split_ifs <;> simp

lemma satCast_intCast (lo hi n : ℤ) (h1 : lo ≤ n) (h2 : n ≤ hi) :
    satCast lo hi (n : ℚ) = n := by
  unfold satCast; rw [truncQ_intCast]; omega

lemma satCast_mem (lo hi : ℤ) (q : ℚ) (h : lo ≤ hi) :
    lo ≤ satCast lo hi q ∧ satCast lo hi q ≤ hi := by
  unfold satCast; omega

lemma satCast_of_mem (lo hi : ℤ) (q : ℚ) (h1 : lo ≤ truncQ q)
    (h2 : truncQ q ≤ hi) : satCast lo hi q = truncQ q := by
  unfold satCast; omega

lemma truncQ_mem (n : ℤ) (q : ℚ) (hn : 1 ≤ n) (h1 : ((-n : ℤ) : ℚ) ≤ q)
    (h2 : q < (n : ℚ)) : -n ≤ truncQ q ∧ truncQ q ≤ n - 1 := by
  unfold truncQ
  split_ifs with h
  · refine ⟨?_, ?_⟩
    · have : (0 : ℤ) ≤ ⌊q⌋ := Int.floor_nonneg.mpr h
      omega
    · have : ⌊q⌋ < n := Int.floor_lt.mpr h2
      omega
  · push_neg at h
    refine ⟨?_, ?_⟩
    · have hcl := Int.ceil_mono h1
      rwa [Int.ceil_intCast] at hcl
    · have : ⌈q⌉ ≤ 0 := Int.ceil_le.mpr (by exact_mod_cast h.le)
      omega

lemma roundHalfEven_intCast (n : ℤ) : roundHalfEven (n : ℚ) = n := by
  unfold roundHalfEven
  rw [Int.floor_intCast]
  norm_num

lemma roundHalfEven_floor_le (q : ℚ) : ⌊q⌋ ≤ roundHalfEven q := by
  unfold roundHalfEven; split_ifs <;> omega

lemma roundHalfEven_le_floor_add_one (q : ℚ) : roundHalfEven q ≤ ⌊q⌋ + 1 := by
  unfold roundHalfEven; split_ifs <;> omega

lemma roundHalfEven_abs_le (q : ℚ) (n : ℤ) (h : |q| < (n : ℚ)) :
    |roundHalfEven q| ≤ n := by
  rw [abs_lt] at h
  have hfl := roundHalfEven_floor_le q
  have hfu := roundHalfEven_le_floor_add_one q
  have h3 : -n ≤ ⌊q⌋ := Int.le_floor.mpr (by push_cast; linarith)
  have h4 : ⌊q⌋ < n := Int.floor_lt.mpr h.2
  rw [abs_le]
  omega

/-- If the scaled significand is already an integer, `roundF` changes
nothing. -/
lemma roundF_eq_of_div_int (p : ℕ) (q : ℚ) (hq : q ≠ 0) (n : ℤ)
    (hn : q / 2 ^ (Int.log 2 |q| - ((p : ℤ) - 1)) = (n : ℚ)) :
    roundF p q = q := by
  unfold roundF
  rw [if_neg hq, hn, roundHalfEven_intCast, ← hn,
    div_mul_cancel₀ _ (zpow_ne_zero _ (by norm_num : (2 : ℚ) ≠ 0))]

/-- A dyadic rational whose numerator fits in `p + 1` bits (absolute
value at most `2 ^ p`) is a fixed point of `roundF p`: such values are
exactly representable. -/
lemma roundF_dyadic_exact (p : ℕ) (hp : 1 ≤ p) (m e : ℤ)
    (hm : |m| ≤ 2 ^ p) :
    roundF p ((m : ℚ) * 2 ^ e) = (m : ℚ) * 2 ^ e := by
  rcases eq_or_ne m 0 with rfl | hm0
  · simp [roundF]
  have h2 : (2 : ℚ) ≠ 0 := by norm_num
  have hq : ((m : ℚ) * 2 ^ e) ≠ 0 :=
    mul_ne_zero (Int.cast_ne_zero.mpr hm0) (zpow_ne_zero _ h2)
  have hpos : 0 < |(m : ℚ) * 2 ^ e| := abs_pos.mpr hq
  have habs : |(m : ℚ) * 2 ^ e| = |(m : ℚ)| * 2 ^ e := by
    rw [abs_mul, abs_of_pos (zpow_pos (by norm_num : (0 : ℚ) < 2) e)]
  have hmq : |(m : ℚ)| ≤ (2 : ℚ) ^ (p : ℤ) := by
    rw [zpow_natCast]
    exact_mod_cast hm
  have hub : |(m : ℚ) * 2 ^ e| ≤ ((2 : ℕ) : ℚ) ^ ((p : ℤ) + e) := by
    push_cast
    rw [habs, zpow_add₀ h2]
    exact mul_le_mul_of_nonneg_right hmq
      (le_of_lt (zpow_pos (by norm_num) e))
  have hL : Int.log 2 |(m : ℚ) * 2 ^ e| ≤ (p : ℤ) + e :=
    le_of_le_of_eq (Int.log_mono_right hpos hub)
      (Int.log_zpow (by norm_num) _)
  rcases le_or_lt (Int.log 2 |(m : ℚ) * 2 ^ e| - ((p : ℤ) - 1)) e with hse | hse
  · set k := (e - (Int.log 2 |(m : ℚ) * 2 ^ e| - ((p : ℤ) - 1))).toNat with hk
    have hsc : Int.log 2 |(m : ℚ) * 2 ^ e| - ((p : ℤ) - 1) = e - (k : ℤ) := by
      rw [hk]; omega
    apply roundF_eq_of_div_int p _ hq (m * 2 ^ k)
    rw [hsc, div_eq_iff (zpow_ne_zero _ h2)]
    push_cast
    rw [← zpow_natCast (2 : ℚ) k, mul_assoc, ← zpow_add₀ h2,
      (by ring : ((k : ℤ) + (e - (k : ℤ))) = e)]
  · have hlow : ((2 : ℕ) : ℚ) ^ Int.log 2 |(m : ℚ) * 2 ^ e|
        ≤ |(m : ℚ) * 2 ^ e| := Int.zpow_log_le_self (by norm_num) hpos
    have hLeq : Int.log 2 |(m : ℚ) * 2 ^ e| = (p : ℤ) + e := by omega
    have h2p : (2 : ℤ) ^ p ≤ |m| := by
      rw [hLeq, habs] at hlow
      push_cast at hlow
      rw [zpow_add₀ h2] at hlow
      have hdiv := le_of_mul_le_mul_right hlow
        (zpow_pos (by norm_num : (0 : ℚ) < 2) e)
      rw [zpow_natCast] at hdiv
      exact_mod_cast hdiv
    have hscale : Int.log 2 |(m : ℚ) * 2 ^ e| - ((p : ℤ) - 1) = e + 1 := by
      omega
    have habs2 : |m| = 2 ^ p := le_antisymm hm h2p
    rcases abs_cases m with ⟨hc, _⟩ | ⟨hc, _⟩
    · have hme : m = 2 ^ p := by rw [← hc, habs2]
      subst hme
      apply roundF_eq_of_div_int p _ hq ((2 : ℤ) ^ (p - 1))
      rw [hscale, div_eq_iff (zpow_ne_zero _ h2)]
      push_cast
      rw [← zpow_natCast (2 : ℚ) p, ← zpow_natCast (2 : ℚ) (p - 1),
        (by omega : (((p - 1 : ℕ)) : ℤ) = (p : ℤ) - 1),
        ← zpow_add₀ h2, ← zpow_add₀ h2,
        (by ring : ((p : ℤ) - 1 + (e + 1)) = (p : ℤ) + e)]
    · have hme' : -m = 2 ^ p := by rw [← hc, habs2]
      have hme : m = -(2 : ℤ) ^ p := by linarith
      subst hme
      apply roundF_eq_of_div_int p _ hq (-((2 : ℤ) ^ (p - 1)))
      rw [hscale, div_eq_iff (zpow_ne_zero _ h2)]
      push_cast
      rw [← zpow_natCast (2 : ℚ) p, ← zpow_natCast (2 : ℚ) (p - 1),
        (by omega : (((p - 1 : ℕ)) : ℤ) = (p : ℤ) - 1),
        neg_mul, neg_mul, neg_inj,
        ← zpow_add₀ h2, ← zpow_add₀ h2,
        (by ring : ((p : ℤ) - 1 + (e + 1)) = (p : ℤ) + e)]

/-- Every output of `roundF p` is a dyadic rational whose numerator
fits in `p + 1` bits. -/
lemma roundF_shape (p : ℕ) (q : ℚ) :
    ∃ m e : ℤ, |m| ≤ 2 ^ p ∧ roundF p q = (m : ℚ) * 2 ^ e := by
  rcases eq_or_ne q 0 with rfl | hq
  · exact ⟨0, 0, by norm_num, by simp [roundF]⟩
  refine ⟨roundHalfEven (q / 2 ^ (Int.log 2 |q| - ((p : ℤ) - 1))),
    Int.log 2 |q| - ((p : ℤ) - 1), ?_, ?_⟩
  · apply roundHalfEven_abs_le
    rw [abs_div,
      abs_of_pos (zpow_pos (by norm_num : (0 : ℚ) < 2)
        (Int.log 2 |q| - ((p : ℤ) - 1))),
      div_lt_iff₀ (zpow_pos (by norm_num) _)]
    calc |q| < ((2 : ℕ) : ℚ) ^ (Int.log 2 |q| + 1) :=
          Int.lt_zpow_succ_log_self (by norm_num) _
      _ = ((2 ^ p : ℤ) : ℚ) * 2 ^ (Int.log 2 |q| - ((p : ℤ) - 1)) := by
          push_cast
          rw [← zpow_natCast (2 : ℚ) p,
            ← zpow_add₀ (by norm_num : (2 : ℚ) ≠ 0),
            (by ring : ((p : ℤ) + (Int.log 2 |q| - ((p : ℤ) - 1)))
              = Int.log 2 |q| + 1)]
  · unfold roundF
    rw [if_neg hq]

/-- `roundF` is idempotent: rounding a rounded value changes nothing. -/
lemma roundF_idem (p : ℕ) (hp : 1 ≤ p) (q : ℚ) :
    roundF p (roundF p q) = roundF p q := by
  obtain ⟨m, e, hm, hEq⟩ := roundF_shape p q
  rw [hEq, roundF_dyadic_exact p hp m e hm]

/-- `roundF` is exact on integers of at most `p + 1` bits. -/
lemma roundF_int_exact (p : ℕ) (hp : 1 ≤ p) (n : ℤ)
    (h1 : -(2 ^ p) ≤ n) (h2 : n ≤ 2 ^ p) : roundF p (n : ℚ) = (n : ℚ) := by
  have h := roundF_dyadic_exact p hp n 0 (abs_le.mpr ⟨h1, h2⟩)
  simpa using h

/-- Scaling an exactly-representable integer down and back up, then
truncating and saturating, recovers the integer. -/
lemma satCast_round_trip (p : ℕ) (hp : 1 ≤ p) (lo hi s : ℤ) (D : ℚ)
    (hD : D ≠ 0) (hc1 : -(2 ^ p) ≤ s) (hc2 : s ≤ 2 ^ p)
    (h1 : lo ≤ s) (h2 : s ≤ hi) :
    satCast lo hi (roundF p (s : ℚ) / D * D) = s := by
  rw [div_mul_cancel₀ _ hD, roundF_int_exact p hp s hc1 hc2,
    satCast_intCast lo hi s h1 h2]

/-! ### Per-format float round trips -/

lemma f32_rt_i8 (s : ℤ) (h1 : -128 ≤ s) (h2 : s ≤ 127) :
    conv.f32.to_i8 (conv.i8.to_f32 s) = s := by
  unfold conv.f32.to_i8 conv.i8.to_f32 castF32
  exact satCast_round_trip 24 (by norm_num) (-128) 127 s 128 (by norm_num)
    (by norm_num; omega) (by norm_num; omega) h1 h2

lemma f32_rt_i16 (s : ℤ) (h1 : -32768 ≤ s) (h2 : s ≤ 32767) :
    conv.f32.to_i16 (conv.i16.to_f32 s) = s := by
  unfold conv.f32.to_i16 conv.i16.to_f32 castF32
  exact satCast_round_trip 24 (by norm_num) (-32768) 32767 s 32768
    (by norm_num) (by norm_num; omega) (by norm_num; omega) h1 h2

lemma f32_rt_i24 (s : ℤ) (h1 : -8388608 ≤ s) (h2 : s ≤ 8388607) :
    conv.f32.to_i24 (conv.i24.to_f32 s) = s := by
  unfold conv.f32.to_i24 conv.i24.to_f32 castF32
  exact satCast_round_trip 24 (by norm_num) (-2147483648) 2147483647 s
    8388608 (by norm_num) (by norm_num; omega) (by norm_num; omega)
    (by omega) (by omega)

lemma f64_rt_i8 (s : ℤ) (h1 : -128 ≤ s) (h2 : s ≤ 127) :
    conv.f64.to_i8 (conv.i8.to_f64 s) = s := by
  unfold conv.f64.to_i8 conv.i8.to_f64 castF64
  exact satCast_round_trip 53 (by norm_num) (-128) 127 s 128 (by norm_num)
    (by norm_num; omega) (by norm_num; omega) h1 h2

lemma f64_rt_i16 (s : ℤ) (h1 : -32768 ≤ s) (h2 : s ≤ 32767) :
    conv.f64.to_i16 (conv.i16.to_f64 s) = s := by
  unfold conv.f64.to_i16 conv.i16.to_f64 castF64
  exact satCast_round_trip 53 (by norm_num) (-32768) 32767 s 32768
    (by norm_num) (by norm_num; omega) (by norm_num; omega) h1 h2

lemma f64_rt_i24 (s : ℤ) (h1 : -8388608 ≤ s) (h2 : s ≤ 8388607) :
    conv.f64.to_i24 (conv.i24.to_f64 s) = s := by
  unfold conv.f64.to_i24 conv.i24.to_f64 castF64
  exact satCast_round_trip 53 (by norm_num) (-2147483648) 2147483647 s
    8388608 (by norm_num) (by norm_num; omega) (by norm_num; omega)
    (by omega) (by omega)

lemma f64_rt_i32 (s : ℤ) (h1 : -2147483648 ≤ s) (h2 : s ≤ 2147483647) :
    conv.f64.to_i32 (conv.i32.to_f64 s) = s := by
  unfold conv.f64.to_i32 conv.i32.to_f64 castF64
  exact satCast_round_trip 53 (by norm_num) (-2147483648) 2147483647 s
    2147483648 (by norm_num) (by norm_num; omega) (by norm_num; omega)
    h1 h2

lemma f64_rt_i48 (s : ℤ) (h1 : -140737488355328 ≤ s)
    (h2 : s ≤ 140737488355327) :
    conv.f64.to_i48 (conv.i48.to_f64 s) = s := by
  unfold conv.f64.to_i48 conv.i48.to_f64 castF64
  exact satCast_round_trip 53 (by norm_num) (-9223372036854775808)
    9223372036854775807 s 140737488355328 (by norm_num)
    (by norm_num; omega) (by norm_num; omega) (by omega) (by omega)

/-- Int→`f32`→int is the identity for every integer format of width at
most 24 (the `f32` significand). -/
lemma float32_rt (F : IntFmt) (h : width F ≤ 24) :
    ∀ x : ℤ, inRange F x → fromF32 F (toF32 F x) = x := by
  cases F with
  | i8 =>
      intro x hx
      have hx' : -128 ≤ x ∧ x < 128 := hx
      exact f32_rt_i8 x hx'.1 (by omega)
  | i16 =>
      intro x hx
      have hx' : -32768 ≤ x ∧ x < 32768 := hx
      exact f32_rt_i16 x hx'.1 (by omega)
  | i24 =>
      intro x hx
      have hx' : -8388608 ≤ x ∧ x < 8388608 := hx
      exact f32_rt_i24 x hx'.1 (by omega)
  | i32 => exact absurd h (by decide)
  | i48 => exact absurd h (by decide)
  | i64 => exact absurd h (by decide)
  | u8 =>
      intro x hx
      have hx' : 0 ≤ x ∧ x < 256 := hx
      have hb1 : -128 ≤ conv.u8.to_i8 x := by
        unfold conv.u8.to_i8; split_ifs <;> omega
      have hb2 : conv.u8.to_i8 x ≤ 127 := by
        unfold conv.u8.to_i8; split_ifs <;> omega
      show conv.i8.to_u8 (conv.f32.to_i8 (conv.i8.to_f32 (conv.u8.to_i8 x))) = x
      rw [f32_rt_i8 _ hb1 hb2]
      unfold conv.i8.to_u8 conv.u8.to_i8
      split_ifs <;> omega
  | u16 =>
      intro x hx
      have hx' : 0 ≤ x ∧ x < 65536 := hx
      have hb1 : -32768 ≤ conv.u16.to_i16 x := by
        unfold conv.u16.to_i16; split_ifs <;> omega
      have hb2 : conv.u16.to_i16 x ≤ 32767 := by
        unfold conv.u16.to_i16; split_ifs <;> omega
      show conv.i16.to_u16 (conv.f32.to_i16 (conv.i16.to_f32
        (conv.u16.to_i16 x))) = x
      rw [f32_rt_i16 _ hb1 hb2]
      unfold conv.i16.to_u16 conv.u16.to_i16
      split_ifs <;> omega
  | u24 =>
      intro x hx
      have hx' : 0 ≤ x ∧ x < 16777216 := hx
      have hb1 : -8388608 ≤ conv.u24.to_i24 x := by
        unfold conv.u24.to_i24; omega
      have hb2 : conv.u24.to_i24 x ≤ 8388607 := by
        unfold conv.u24.to_i24; omega
      show conv.i24.to_u24 (conv.f32.to_i24 (conv.i24.to_f32
        (conv.u24.to_i24 x))) = x
      rw [f32_rt_i24 _ hb1 hb2]
      unfold conv.i24.to_u24 conv.u24.to_i24
      omega
  | u32 => exact absurd h (by decide)
  | u48 => exact absurd h (by decide)
  | u64 => exact absurd h (by decide)

/-- Int→`f64`→int is the identity for every integer format whose width
fits the `f64` significand (53 bits, so everything except the 64-bit
formats). -/
lemma float64_rt (F : IntFmt) (h : width F ≤ 53) :
    ∀ x : ℤ, inRange F x → fromF64 F (toF64 F x) = x := by
  cases F with
  | i8 =>
      intro x hx
      have hx' : -128 ≤ x ∧ x < 128 := hx
      exact f64_rt_i8 x hx'.1 (by omega)
  | i16 =>
      intro x hx
      have hx' : -32768 ≤ x ∧ x < 32768 := hx
      exact f64_rt_i16 x hx'.1 (by omega)
  | i24 =>
      intro x hx
      have hx' : -8388608 ≤ x ∧ x < 8388608 := hx
      exact f64_rt_i24 x hx'.1 (by omega)
  | i32 =>
      intro x hx
      have hx' : -2147483648 ≤ x ∧ x < 2147483648 := hx
      exact f64_rt_i32 x hx'.1 (by omega)
  | i48 =>
      intro x hx
      have hx' : -140737488355328 ≤ x ∧ x < 140737488355328 := hx
      exact f64_rt_i48 x hx'.1 (by omega)
  | i64 => exact absurd h (by decide)
  | u8 =>
      intro x hx
      have hx' : 0 ≤ x ∧ x < 256 := hx
      have hb1 : -128 ≤ conv.u8.to_i8 x := by
        unfold conv.u8.to_i8; split_ifs <;> omega
      have hb2 : conv.u8.to_i8 x ≤ 127 := by
        unfold conv.u8.to_i8; split_ifs <;> omega
      show conv.i8.to_u8 (conv.f64.to_i8 (conv.i8.to_f64 (conv.u8.to_i8 x))) = x
      rw [f64_rt_i8 _ hb1 hb2]
      unfold conv.i8.to_u8 conv.u8.to_i8
      split_ifs <;> omega
  | u16 =>
      intro x hx
      have hx' : 0 ≤ x ∧ x < 65536 := hx
      have hb1 : -32768 ≤ conv.u16.to_i16 x := by
        unfold conv.u16.to_i16; split_ifs <;> omega
      have hb2 : conv.u16.to_i16 x ≤ 32767 := by
        unfold conv.u16.to_i16; split_ifs <;> omega
      show conv.i16.to_u16 (conv.f64.to_i16 (conv.i16.to_f64
        (conv.u16.to_i16 x))) = x
      rw [f64_rt_i16 _ hb1 hb2]
      unfold conv.i16.to_u16 conv.u16.to_i16
      split_ifs <;> omega
  | u24 =>
      intro x hx
      have hx' : 0 ≤ x ∧ x < 16777216 := hx
      have hb1 : -8388608 ≤ conv.u24.to_i24 x := by
        unfold conv.u24.to_i24; omega
      have hb2 : conv.u24.to_i24 x ≤ 8388607 := by
        unfold conv.u24.to_i24; omega
      show conv.i24.to_u24 (conv.f64.to_i24 (conv.i24.to_f64
        (conv.u24.to_i24 x))) = x
      rw [f64_rt_i24 _ hb1 hb2]
      unfold conv.i24.to_u24 conv.u24.to_i24
      omega
  | u32 =>
      intro x hx
      have hx' : 0 ≤ x ∧ x < 4294967296 := hx
      have hb1 : -2147483648 ≤ conv.u32.to_i32 x := by
        unfold conv.u32.to_i32; split_ifs <;> omega
      have hb2 : conv.u32.to_i32 x ≤ 2147483647 := by
        unfold conv.u32.to_i32; split_ifs <;> omega
      show conv.i32.to_u32 (conv.f64.to_i32 (conv.i32.to_f64
        (conv.u32.to_i32 x))) = x
      rw [f64_rt_i32 _ hb1 hb2]
      unfold conv.i32.to_u32 conv.u32.to_i32
      split_ifs <;> omega
  | u48 =>
      intro x hx
      have hx' : 0 ≤ x ∧ x < 281474976710656 := hx
      have hb1 : -140737488355328 ≤ conv.u48.to_i48 x := by
        unfold conv.u48.to_i48; omega
      have hb2 : conv.u48.to_i48 x ≤ 140737488355327 := by
        unfold conv.u48.to_i48; omega
      show conv.i48.to_u48 (conv.f64.to_i48 (conv.i48.to_f64
        (conv.u48.to_i48 x))) = x
      rw [f64_rt_i48 _ hb1 hb2]
      unfold conv.i48.to_u48 conv.u48.to_i48
      omega
  | u64 => exact absurd h (by decide)

/-- Narrowing `f32`→int is idempotent after the first narrowing, for
every integer format of width at most 24 and every in-contract float
input. -/
lemma float32_narrow (F : IntFmt) (h : width F ≤ 24) :
    ∀ q : ℚ, -1 ≤ q → q < 1 →
      fromF32 F (toF32 F (fromF32 F q)) = fromF32 F q := by
  cases F with
  | i8 =>
      intro q h1 h2
      have hb : -128 ≤ conv.f32.to_i8 q ∧ conv.f32.to_i8 q ≤ 127 :=
        satCast_mem (-128) 127 (q * 128) (by norm_num)
      exact f32_rt_i8 _ hb.1 hb.2
  | i16 =>
      intro q h1 h2
      have hb : -32768 ≤ conv.f32.to_i16 q ∧ conv.f32.to_i16 q ≤ 32767 :=
        satCast_mem (-32768) 32767 (q * 32768) (by norm_num)
      exact f32_rt_i16 _ hb.1 hb.2
  | i24 =>
      intro q h1 h2
      have ht := truncQ_mem 8388608 (q * 8388608) (by norm_num)
        (by push_cast; linarith) (by push_cast; linarith)
      have hy : conv.f32.to_i24 q = truncQ (q * 8388608) :=
        satCast_of_mem _ _ _ (by omega) (by omega)
      show conv.f32.to_i24 (conv.i24.to_f32 (conv.f32.to_i24 q))
        = conv.f32.to_i24 q
      rw [hy]
      exact f32_rt_i24 _ (by omega) (by omega)
  | i32 => exact absurd h (by decide)
  | i48 => exact absurd h (by decide)
  | i64 => exact absurd h (by decide)
  | u8 =>
      intro q h1 h2
      have hb : -128 ≤ conv.f32.to_i8 q ∧ conv.f32.to_i8 q ≤ 127 :=
        satCast_mem (-128) 127 (q * 128) (by norm_num)
      have hbias : conv.u8.to_i8 (conv.i8.to_u8 (conv.f32.to_i8 q))
          = conv.f32.to_i8 q := by
        obtain ⟨hb1, hb2⟩ := hb
        unfold conv.u8.to_i8 conv.i8.to_u8
        split_ifs <;> omega
      show conv.i8.to_u8 (conv.f32.to_i8 (conv.i8.to_f32 (conv.u8.to_i8
        (conv.i8.to_u8 (conv.f32.to_i8 q))))) = conv.i8.to_u8 (conv.f32.to_i8 q)
      rw [hbias, f32_rt_i8 _ hb.1 hb.2]
  | u16 =>
      intro q h1 h2
      have hb : -32768 ≤ conv.f32.to_i16 q ∧ conv.f32.to_i16 q ≤ 32767 :=
        satCast_mem (-32768) 32767 (q * 32768) (by norm_num)
      have hbias : conv.u16.to_i16 (conv.i16.to_u16 (conv.f32.to_i16 q))
          = conv.f32.to_i16 q := by
        obtain ⟨hb1, hb2⟩ := hb
        unfold conv.u16.to_i16 conv.i16.to_u16
        split_ifs <;> omega
      show conv.i16.to_u16 (conv.f32.to_i16 (conv.i16.to_f32 (conv.u16.to_i16
        (conv.i16.to_u16 (conv.f32.to_i16 q))))) = conv.i16.to_u16 (conv.f32.to_i16 q)
      rw [hbias, f32_rt_i16 _ hb.1 hb.2]
  | u24 =>
      intro q h1 h2
      have ht := truncQ_mem 8388608 (q * 8388608) (by norm_num)
        (by push_cast; linarith) (by push_cast; linarith)
      have hy : conv.f32.to_i24 q = truncQ (q * 8388608) :=
        satCast_of_mem _ _ _ (by omega) (by omega)
      have hbias : conv.u24.to_i24 (conv.i24.to_u24 (conv.f32.to_i24 q))
          = conv.f32.to_i24 q := by
        unfold conv.u24.to_i24 conv.i24.to_u24
        omega
      show conv.i24.to_u24 (conv.f32.to_i24 (conv.i24.to_f32 (conv.u24.to_i24
        (conv.i24.to_u24 (conv.f32.to_i24 q))))) = conv.i24.to_u24 (conv.f32.to_i24 q)
      rw [hbias, hy, f32_rt_i24 _ (by omega) (by omega)]
  | u32 => exact absurd h (by decide)
  | u48 => exact absurd h (by decide)
  | u64 => exact absurd h (by decide)

/-- Narrowing `f64`→int is idempotent after the first narrowing, for
every integer format whose width fits the `f64` significand and every
in-contract float input. -/
lemma float64_narrow (F : IntFmt) (h : width F ≤ 53) :
    ∀ q : ℚ, -1 ≤ q → q < 1 →
      fromF64 F (toF64 F (fromF64 F q)) = fromF64 F q := by
  cases F with
  | i8 =>
      intro q h1 h2
      have hb : -128 ≤ conv.f64.to_i8 q ∧ conv.f64.to_i8 q ≤ 127 :=
        satCast_mem (-128) 127 (q * 128) (by norm_num)
      exact f64_rt_i8 _ hb.1 hb.2
  | i16 =>
      intro q h1 h2
      have hb : -32768 ≤ conv.f64.to_i16 q ∧ conv.f64.to_i16 q ≤ 32767 :=
        satCast_mem (-32768) 32767 (q * 32768) (by norm_num)
      exact f64_rt_i16 _ hb.1 hb.2
  | i24 =>
      intro q h1 h2
      have ht := truncQ_mem 8388608 (q * 8388608) (by norm_num)
        (by push_cast; linarith) (by push_cast; linarith)
      have hy : conv.f64.to_i24 q = truncQ (q * 8388608) :=
        satCast_of_mem _ _ _ (by omega) (by omega)
      show conv.f64.to_i24 (conv.i24.to_f64 (conv.f64.to_i24 q))
        = conv.f64.to_i24 q
      rw [hy]
      exact f64_rt_i24 _ (by omega) (by omega)
  | i32 =>
      intro q h1 h2
      have hb : -2147483648 ≤ conv.f64.to_i32 q ∧
          conv.f64.to_i32 q ≤ 2147483647 :=
        satCast_mem (-2147483648) 2147483647 (q * 2147483648) (by norm_num)
      exact f64_rt_i32 _ hb.1 hb.2
  | i48 =>
      intro q h1 h2
      have ht := truncQ_mem 140737488355328 (q * 140737488355328)
        (by norm_num) (by push_cast; linarith) (by push_cast; linarith)
      have hy : conv.f64.to_i48 q = truncQ (q * 140737488355328) :=
        satCast_of_mem _ _ _ (by omega) (by omega)
      show conv.f64.to_i48 (conv.i48.to_f64 (conv.f64.to_i48 q))
        = conv.f64.to_i48 q
      rw [hy]
      exact f64_rt_i48 _ (by omega) (by omega)
  | i64 => exact absurd h (by decide)
  | u8 =>
      intro q h1 h2
      have hb : -128 ≤ conv.f64.to_i8 q ∧ conv.f64.to_i8 q ≤ 127 :=
        satCast_mem (-128) 127 (q * 128) (by norm_num)
      have hbias : conv.u8.to_i8 (conv.i8.to_u8 (conv.f64.to_i8 q))
          = conv.f64.to_i8 q := by
        obtain ⟨hb1, hb2⟩ := hb
        unfold conv.u8.to_i8 conv.i8.to_u8
        split_ifs <;> omega
      show conv.i8.to_u8 (conv.f64.to_i8 (conv.i8.to_f64 (conv.u8.to_i8
        (conv.i8.to_u8 (conv.f64.to_i8 q))))) = conv.i8.to_u8 (conv.f64.to_i8 q)
      rw [hbias, f64_rt_i8 _ hb.1 hb.2]
  | u16 =>
      intro q h1 h2
      have hb : -32768 ≤ conv.f64.to_i16 q ∧ conv.f64.to_i16 q ≤ 32767 :=
        satCast_mem (-32768) 32767 (q * 32768) (by norm_num)
      have hbias : conv.u16.to_i16 (conv.i16.to_u16 (conv.f64.to_i16 q))
          = conv.f64.to_i16 q := by
        obtain ⟨hb1, hb2⟩ := hb
        unfold conv.u16.to_i16 conv.i16.to_u16
        split_ifs <;> omega
      show conv.i16.to_u16 (conv.f64.to_i16 (conv.i16.to_f64 (conv.u16.to_i16
        (conv.i16.to_u16 (conv.f64.to_i16 q))))) = conv.i16.to_u16 (conv.f64.to_i16 q)
      rw [hbias, f64_rt_i16 _ hb.1 hb.2]
  | u24 =>
      intro q h1 h2
      have ht := truncQ_mem 8388608 (q * 8388608) (by norm_num)
        (by push_cast; linarith) (by push_cast; linarith)
      have hy : conv.f64.to_i24 q = truncQ (q * 8388608) :=
        satCast_of_mem _ _ _ (by omega) (by omega)
      have hbias : conv.u24.to_i24 (conv.i24.to_u24 (conv.f64.to_i24 q))
          = conv.f64.to_i24 q := by
        unfold conv.u24.to_i24 conv.i24.to_u24
        omega
      show conv.i24.to_u24 (conv.f64.to_i24 (conv.i24.to_f64 (conv.u24.to_i24
        (conv.i24.to_u24 (conv.f64.to_i24 q))))) = conv.i24.to_u24 (conv.f64.to_i24 q)
      rw [hbias, hy, f64_rt_i24 _ (by omega) (by omega)]
  | u32 =>
      intro q h1 h2
      have hb : -2147483648 ≤ conv.f64.to_i32 q ∧
          conv.f64.to_i32 q ≤ 2147483647 :=
        satCast_mem (-2147483648) 2147483647 (q * 2147483648) (by norm_num)
      have hbias : conv.u32.to_i32 (conv.i32.to_u32 (conv.f64.to_i32 q))
          = conv.f64.to_i32 q := by
        obtain ⟨hb1, hb2⟩ := hb
        unfold conv.u32.to_i32 conv.i32.to_u32
        split_ifs <;> omega
      show conv.i32.to_u32 (conv.f64.to_i32 (conv.i32.to_f64 (conv.u32.to_i32
        (conv.i32.to_u32 (conv.f64.to_i32 q))))) = conv.i32.to_u32 (conv.f64.to_i32 q)
      rw [hbias, f64_rt_i32 _ hb.1 hb.2]
  | u48 =>
      intro q h1 h2
      have ht := truncQ_mem 140737488355328 (q * 140737488355328)
        (by norm_num) (by push_cast; linarith) (by push_cast; linarith)
      have hy : conv.f64.to_i48 q = truncQ (q * 140737488355328) :=
        satCast_of_mem _ _ _ (by omega) (by omega)
      have hbias : conv.u48.to_i48 (conv.i48.to_u48 (conv.f64.to_i48 q))
          = conv.f64.to_i48 q := by
        unfold conv.u48.to_i48 conv.i48.to_u48
        omega
      show conv.i48.to_u48 (conv.f64.to_i48 (conv.i48.to_f64 (conv.u48.to_i48
        (conv.i48.to_u48 (conv.f64.to_i48 q))))) = conv.i48.to_u48 (conv.f64.to_i48 q)
      rw [hbias, hy, f64_rt_i48 _ (by omega) (by omega)]
  | u64 => exact absurd h (by decide)

/-! ### The format-indexed conversion relation -/

/-- All fourteen sample formats of conv.rs. -/
inductive Fmt
  | int (F : IntFmt)
  | f32
  | f64

/-- The carrier of each format in the embedding: integer formats carry
`ℤ`, float formats carry `ℚ`. -/
@[reducible] def Val : Fmt → Type
  | .int _ => ℤ
  | .f32 => ℚ
  | .f64 => ℚ

/-- Dyadic rationals with a `p`-bit significand: the values an
unbounded-exponent binary float with `p` significand bits represents. -/
def IsDyadic (p : ℕ) (q : ℚ) : Prop :=
  ∃ m e : ℤ, |m| ≤ 2 ^ p ∧ q = (m : ℚ) * 2 ^ e

/-- The representable values of each format: the integer range for
integer formats, and in-contract (`-1.0 <= s < 1.0`, conv.rs lines
531-532) representable floats for the float formats. -/
def Representable : (A : Fmt) → Val A → Prop
  | .int F => inRange F
  | .f32 => fun q => IsDyadic 24 q ∧ -1 ≤ q ∧ q < 1
  | .f64 => fun q => IsDyadic 53 q ∧ -1 ≤ q ∧ q < 1

/-- The conversion `A → B`, dispatching exactly as the `FromSample`
impls of conv.rs do (the `A = A` case is the blanket
`impl FromSample<S> for S`, which returns its argument). -/
def fmtConv : (A B : Fmt) → Val A → Val B
  | .int F, .int G => intConv F G
  | .int F, .f32 => toF32 F
  | .int F, .f64 => toF64 F
  | .f32, .int G => fromF32 G
  | .f32, .f32 => fun s => s
  | .f32, .f64 => conv.f32.to_f64
  | .f64, .int G => fromF64 G
  | .f64, .f32 => conv.f64.to_f32
  | .f64, .f64 => fun s => s

/-- `losslessLE A B` formalises the claim's "B has equal or wider
precision than A", following the spec's notion of a lossless pair:
every representable `A` value converts to `B` and back without loss.
Integer formats are ordered by bit width (equal-width signed/unsigned
pairs inter-convert exactly through the bias, so they have equal
precision); an integer format fits in a float format exactly when its
width is at most the float's significand size (24 bits for `f32`, 53
for `f64`); `f32` fits in `f64`; no float format fits in any integer
format, because floats carry fractional values. -/
def losslessLE : Fmt → Fmt → Bool
  | .int F, .int G => decide (width F ≤ width G)
  | .int F, .f32 => decide (width F ≤ 24)
  | .int F, .f64 => decide (width F ≤ 53)
  | .f32, .int _ => false
  | .f32, .f32 => true
  | .f32, .f64 => true
  | .f64, .int _ => false
  | .f64, .f32 => false
  | .f64, .f64 => true

/-- Strictly wider precision: `B` can hold everything `A` can, but not
conversely. -/
def losslessLT (A B : Fmt) : Bool := losslessLE A B && !losslessLE B A

/-- **C2.** Round-trip and idempotence laws of the Sample Conversion
Engine (conv.rs `conversions!` modules, lines 135-565).  The claim's
"B has equal or wider precision than A" is read as `losslessLE A B`
(see its doc comment): bit-width order on the integer formats,
significand-size order between integer and float formats, `f32` below
`f64`.  First conjunct: for every such pair, converting `A→B` then
`B→A` is the identity on every representable `A` value.  Second
conjunct: for every strictly narrowing pair (`B` wider than `A`),
narrowing, re-widening and narrowing again gives the same value as the
single narrowing `B→A`, on every representable `B` value. -/
theorem sample_conversion_round_trip :
    (∀ A B : Fmt, losslessLE A B = true → ∀ x : Val A, Representable A x →
        fmtConv B A (fmtConv A B x) = x)
  ∧ (∀ A B : Fmt, losslessLT A B = true → ∀ x : Val B, Representable B x →
        fmtConv B A (fmtConv A B (fmtConv B A x)) = fmtConv B A x) := by
  constructor
  · intro A B h x hx
    cases A with
    | int F =>
        cases B with
        | int G => exact intConv_round_trip F G (of_decide_eq_true h) x hx
        | f32 => exact float32_rt F (of_decide_eq_true h) x hx
        | f64 => exact float64_rt F (of_decide_eq_true h) x hx
    | f32 =>
        cases B with
        | int G => exact Bool.noConfusion h
        | f32 => rfl
        | f64 =>
            have hx' : IsDyadic 24 x ∧ -1 ≤ x ∧ x < 1 := hx
            obtain ⟨⟨m, e, hm, rfl⟩, -, -⟩ := hx'
            exact roundF_dyadic_exact 24 (by norm_num) m e hm
    | f64 =>
        cases B with
        | int G => exact Bool.noConfusion h
        | f32 => exact Bool.noConfusion h
        | f64 => rfl
  · intro A B h x hx
    cases A with
    | int F =>
        cases B with
        | int G =>
            have hw : width F < width G := by
              have h' := h
              simp only [losslessLT, losslessLE, Bool.and_eq_true,
                Bool.not_eq_true', decide_eq_true_eq,
                decide_eq_false_iff_not, Bool.not_false, Bool.and_true] at h'
              omega
            exact intConv_narrow_idem F G hw x hx
        | f32 =>
            have hw : width F ≤ 24 := by
              have h' := h
              simp only [losslessLT, losslessLE, Bool.and_eq_true,
                Bool.not_eq_true', decide_eq_true_eq,
                decide_eq_false_iff_not, Bool.not_false, Bool.and_true] at h'
              omega
            have hx' : IsDyadic 24 x ∧ -1 ≤ x ∧ x < 1 := hx
            exact float32_narrow F hw x hx'.2.1 hx'.2.2
        | f64 =>
            have hw : width F ≤ 53 := by
              have h' := h
              simp only [losslessLT, losslessLE, Bool.and_eq_true,
                Bool.not_eq_true', decide_eq_true_eq,
                decide_eq_false_iff_not, Bool.not_false, Bool.and_true] at h'
              omega
            have hx' : IsDyadic 53 x ∧ -1 ≤ x ∧ x < 1 := hx
            exact float64_narrow F hw x hx'.2.1 hx'.2.2
    | f32 =>
        cases B with
        | int G => exact Bool.noConfusion h
        | f32 => exact Bool.noConfusion h
        | f64 => exact roundF_idem 24 (by norm_num) x
    | f64 =>
        cases B with
        | int G => exact Bool.noConfusion h
        | f32 => exact Bool.noConfusion h
        | f64 => exact Bool.noConfusion h

/-- Witness: the lossless pair `(i8, i16)` round-trips `-5` to itself,
and the narrowing pair `(i8, i16)` maps `300` idempotently. -/
theorem sample_conversion_round_trip_witness :
    fmtConv (Fmt.int IntFmt.i16) (Fmt.int IntFmt.i8)
        (fmtConv (Fmt.int IntFmt.i8) (Fmt.int IntFmt.i16) (-5 : ℤ)) = (-5 : ℤ)
  ∧ fmtConv (Fmt.int IntFmt.i16) (Fmt.int IntFmt.i8)
        (fmtConv (Fmt.int IntFmt.i8) (Fmt.int IntFmt.i16)
          (fmtConv (Fmt.int IntFmt.i16) (Fmt.int IntFmt.i8) (300 : ℤ)))
      = fmtConv (Fmt.int IntFmt.i16) (Fmt.int IntFmt.i8) (300 : ℤ) :=
  ⟨sample_conversion_round_trip.1 (Fmt.int IntFmt.i8) (Fmt.int IntFmt.i16)
      (by decide) (-5) ⟨by norm_num, by norm_num⟩,
    sample_conversion_round_trip.2 (Fmt.int IntFmt.i8) (Fmt.int IntFmt.i16)
      (by decide) 300 ⟨by norm_num, by norm_num⟩⟩

end Catalina
